import Mathlib

/-!
Shallow embedding of the x86 real-mode MZ-executable emulator
(`emulator.go` of tiqwab/x86-emulator): MZ header parser, flat memory,
register file and flags, instruction decoder, executor and interpreter
loop.  Machine words are modelled as `Nat` with explicit `% 65536`
truncation wherever the Go code performs `uint16` arithmetic (`word` and
`address` are both `uint16` in the source).  Go's multi-value
`(value, error)` returns become `Except`/`Res` values; a Go runtime
panic (out-of-range slice index, `make` with negative length, stack
overflow) or a non-returning loop is the abnormal outcome `Res.crash`,
which is distinct from an ordinary returned error.
-/

/-- Errors returned by the emulator.  The Go code wraps errors with
context strings; the embedding keeps only the cause, which is what the
interpreter loop inspects (`errors.Cause(err) == io.EOF`).  `eof`
models `io.EOF`, produced only by the byte-stream parser; the memory
bounds failures of `readBytes`/`writeByte`/`writeWord` are
`illegalAddress` (Go builds those with `fmt.Errorf`, so their cause is
never `io.EOF`). -/
inductive emuErr : Type where
  | eof : emuErr
  | illegalAddress : Nat → emuErr
  | unknownOpcode : Nat → emuErr
  | notImplemented : emuErr
  | illegalRegister : emuErr
  | unknownIntOperand : Nat → emuErr
  | noIntHandler : Nat → emuErr
deriving DecidableEq

/-- Outcome of a fallible operation that can also abort the whole Go
process: `ok`, an error return, or `crash` (runtime panic or
divergence, which never returns to the caller). -/
inductive Res (α : Type) : Type where
  | ok : α → Res α
  | err : emuErr → Res α
  | crash : Res α
deriving DecidableEq

instance exceptDecEq {ε α : Type} [DecidableEq ε] [DecidableEq α] : DecidableEq (Except ε α)
  | .ok a, .ok b =>
    match decEq a b with
    | isTrue h => isTrue (by rw [h])
    | isFalse h => isFalse (fun hh => h (by cases hh; rfl))
  | .ok _, .error _ => isFalse (fun hh => by cases hh)
  | .error _, .ok _ => isFalse (fun hh => by cases hh)
  | .error a, .error b =>
    match decEq a b with
    | isTrue h => isTrue (by rw [h])
    | isFalse h => isFalse (fun hh => h (by cases hh; rfl))

def Res.bind {α β : Type} : Res α → (α → Res β) → Res β
  | .ok a, f => f a
  | .err e, _ => .err e
  | .crash, _ => .crash

instance : Monad Res where
  pure := .ok
  bind := Res.bind

/-- Lift a read-only memory operation (which can fail but never
panics) into `Res`. -/
def liftE {α : Type} : Except emuErr α → Res α
  | .ok a => .ok a
  | .error e => .err e

/-- Truncation to 16 bits: the semantics of Go `word`/`address`
(`uint16`) arithmetic. -/
def w16 (n : Nat) : Nat := n % 65536

/-- Conversion of a Go `int` value to `uint16` (used for
`address(...)`/`word(...)` casts of signed intermediate results). -/
def castWord (i : Int) : Nat := (i.emod 65536).toNat

/-- Reinterpretation of a 16-bit word as a signed `int16`. -/
def int16OfWord (w : Nat) : Int := if w < 32768 then (w : Int) else (w : Int) - 65536

/-- Two's-complement reading of one byte as `int8`
(Go `binary.Read` into an `int8`). -/
def int8OfByte (b : Nat) : Int := if b < 128 then (b : Int) else (b : Int) - 256

/-- Go `uint8(x)` conversion of a signed value. -/
def castByte (i : Int) : Nat := (i.emod 256).toNat

/-- Mirrors `realAddress` of the source: `address(seg) << 4 +
address(offset)` where `address` is `uint16`, so both the shift and the
addition are performed modulo 2^16. -/
def realAddress (seg : Nat) (offset : Nat) : Nat :=
  w16 (w16 (seg <<< 4) + offset)

def paragraphSize : Nat := 16

/-- Byte-stream parser (`bufio.Scanner` over single bytes plus the
running offset). -/
structure parser : Type where
  bytes : List Nat
  offset : Nat
deriving DecidableEq

def newParser (bs : List Nat) : parser := ⟨bs, 0⟩

/-- Mirrors `parser.parseBytes`: consume `n` bytes; hitting the end of
the stream yields `io.EOF`. -/
def parser.parseBytes (n : Nat) (p : parser) : Except emuErr (List Nat × parser) :=
  match n with
  | 0 => .ok ([], p)
  | n' + 1 =>
    match p.bytes with
    | [] => .error .eof
    | b :: rest =>
      match parser.parseBytes n' ⟨rest, p.offset + 1⟩ with
      | .ok (bs, p') => .ok (b :: bs, p')
      | .error e => .error e

def parser.parseByte (p : parser) : Except emuErr (Nat × parser) :=
  match parser.parseBytes 1 p with
  | .ok (bs, p') => .ok (bs.headD 0, p')
  | .error e => .error e

/-- Little-endian 16-bit read, `word(buf[1]) << 8 + word(buf[0])`. -/
def parser.parseWord (p : parser) : Except emuErr (Nat × parser) :=
  match parser.parseBytes 2 p with
  | .ok (bs, p') => .ok (w16 ((bs.getD 1 0) <<< 8 + bs.getD 0 0), p')
  | .error e => .error e

/-- Byte-collecting loop of `parser.parseRemains`. -/
def parseRemainsList : List Nat → Nat → List Nat × parser
  | [], off => ([], ⟨[], off⟩)
  | b :: rest, off =>
    let (bs, p') := parseRemainsList rest (off + 1)
    (b :: bs, p')

/-- Mirrors `parser.parseRemains`: consume bytes one at a time until the
stream's `io.EOF` ends the loop (so it always succeeds, returning the
remaining bytes). -/
def parser.parseRemains (p : parser) : Except emuErr (List Nat × parser) :=
  .ok (parseRemainsList p.bytes p.offset)

/-- MZ header, as in the source.  The signature bytes are stored; the
parser performs no validation on them. -/
structure header : Type where
  exSignature : Nat × Nat
  relocationItems : Nat
  exHeaderSize : Nat
  exInitSS : Nat
  exInitSP : Nat
  exInitIP : Nat
  exInitCS : Nat
  relocationTableOffset : Nat
deriving DecidableEq

/-- Mirrors `parseHeaderWithParser`: fixed little-endian fields at fixed
offsets, then `headerSize*16 - offset` filler bytes, then the remaining
stream as the load module.  A negative filler count would make Go call
`make([]byte, n)` with `n < 0`, a runtime panic (`Res.crash`). -/
def parseHeaderWithParser (p : parser) : Res (header × List Nat) := do
  let (sig, p) ← liftE (parser.parseBytes 2 p)
  let exSignature := (sig.getD 0 0, sig.getD 1 0)
  let (_, p) ← liftE (parser.parseBytes 4 p)
  let (relocationItems, p) ← liftE (parser.parseWord p)
  let (exHeaderSize, p) ← liftE (parser.parseWord p)
  let (_, p) ← liftE (parser.parseBytes 4 p)
  let (exInitSS, p) ← liftE (parser.parseWord p)
  let (exInitSP, p) ← liftE (parser.parseWord p)
  let (_, p) ← liftE (parser.parseBytes 2 p)
  let (exInitIP, p) ← liftE (parser.parseWord p)
  let (exInitCS, p) ← liftE (parser.parseWord p)
  let (relocationTableOffset, p) ← liftE (parser.parseWord p)
  let remainHeaderBytes : Int := (exHeaderSize : Int) * paragraphSize - (p.offset : Int)
  if remainHeaderBytes < 0 then
    Res.crash
  else do
    let (_, p) ← liftE (parser.parseBytes remainHeaderBytes.toNat p)
    let (loadModule, _) ← liftE (parser.parseRemains p)
    Res.ok ({ exSignature := exSignature,
              relocationItems := relocationItems,
              exHeaderSize := exHeaderSize,
              exInitSS := exInitSS,
              exInitSP := exInitSP,
              exInitIP := exInitIP,
              exInitCS := exInitCS,
              relocationTableOffset := relocationTableOffset }, loadModule)

/-- Flat memory: the byte buffer (`loadModule` field, as in the source)
and its recorded size.  The constructors keep `memorySize` equal to the
buffer length. -/
structure memory : Type where
  loadModule : List Nat
  memorySize : Nat
deriving DecidableEq

def newMemory (lm : List Nat) : memory := ⟨lm, lm.length⟩

/-- Mirrors `newMemoryFromHeader`: buffer sized
`len(loadModule) + realAddress(initSS, initSP)`. -/
def newMemoryFromHeader (lm : List Nat) (h : header) : memory :=
  let stackSize := realAddress h.exInitSS h.exInitSP
  ⟨lm ++ List.replicate stackSize 0, lm.length + stackSize⟩

/-- Mirrors `memory.readBytes`: the bounds check covers the last byte
(`int(at) + (n-1) >= memorySize`).  Only called with `n = 1` or
`n = 2`. -/
def memory.readBytes (m : memory) (at0 : Nat) (n : Nat) : Except emuErr (List Nat) :=
  if at0 + (n - 1) ≥ m.memorySize then
    .error (.illegalAddress at0)
  else
    .ok ((List.range n).map fun i => m.loadModule.getD (at0 + i) 0)

def memory.readByte (m : memory) (at0 : Nat) : Except emuErr Nat :=
  match m.readBytes at0 1 with
  | .ok bs => .ok (bs.getD 0 0)
  | .error e => .error e

def memory.readWord (m : memory) (at0 : Nat) : Except emuErr Nat :=
  match m.readBytes at0 2 with
  | .ok bs => .ok (w16 ((bs.getD 1 0) <<< 8 + bs.getD 0 0))
  | .error e => .error e

def memory.readInt8 (m : memory) (at0 : Nat) : Except emuErr Int :=
  match m.readByte at0 with
  | .ok b => .ok (int8OfByte b)
  | .error e => .error e

def memory.readInt16 (m : memory) (at0 : Nat) : Except emuErr Int :=
  match m.readWord at0 with
  | .ok w => .ok (int16OfWord w)
  | .error e => .error e

/-- Mirrors `memory.writeByte`: bounds check on the single byte. -/
def memory.writeByte (m : memory) (at0 : Nat) (b : Nat) : Res memory :=
  if at0 ≥ m.memorySize then
    .err (.illegalAddress at0)
  else
    .ok ⟨m.loadModule.set at0 b, m.memorySize⟩

/-- Mirrors `memory.writeWord`: the bounds check covers only the FIRST
byte (`int(at) >= memorySize`); the high byte is then stored at
`at+1` (a `uint16` index, hence the wrap), and if that index is outside
the buffer the Go slice write panics — `Res.crash`. -/
def memory.writeWord (m : memory) (at0 : Nat) (w : Nat) : Res memory :=
  if at0 ≥ m.memorySize then
    .err (.illegalAddress at0)
  else
    let low := w &&& 255
    let high := (w &&& 65280) >>> 8
    let hi_index := w16 (at0 + 1)
    if hi_index ≥ m.memorySize then
      Res.crash
    else
      .ok ⟨(m.loadModule.set at0 low).set hi_index high, m.memorySize⟩

/-- Sixteen-bit general registers (`registerW`). -/
inductive registerW : Type where
  | AX | CX | DX | BX | SP | BP | SI | DI
deriving DecidableEq

/-- Eight-bit register halves (`registerB`). -/
inductive registerB : Type where
  | AL | CL | DL | BL | AH | CH | DH | BH
deriving DecidableEq

/-- Segment registers (`registerS`). -/
inductive registerS : Type where
  | ES | CS | SS | DS | FS | GS
deriving DecidableEq

/-- Mirrors `toRegisterW` (ModR/M field number to 16-bit register). -/
def toRegisterW (x : Nat) : Res registerW :=
  match x with
  | 0 => .ok .AX
  | 1 => .ok .CX
  | 2 => .ok .DX
  | 3 => .ok .BX
  | 4 => .ok .SP
  | 5 => .ok .BP
  | 6 => .ok .SI
  | 7 => .ok .DI
  | _ => .err .illegalRegister

/-- Mirrors `toRegisterB`. -/
def toRegisterB (x : Nat) : Res registerB :=
  match x with
  | 0 => .ok .AL
  | 1 => .ok .CL
  | 2 => .ok .DL
  | 3 => .ok .BL
  | 4 => .ok .AH
  | 5 => .ok .CH
  | 6 => .ok .DH
  | 7 => .ok .BH
  | _ => .err .illegalRegister

/-- Mirrors `toRegisterS`. -/
def toRegisterS (x : Nat) : Res registerS :=
  match x with
  | 0 => .ok .ES
  | 1 => .ok .CS
  | 2 => .ok .SS
  | 3 => .ok .DS
  | 4 => .ok .FS
  | 5 => .ok .GS
  | _ => .err .illegalRegister

/-- Direct Go cast `registerW(n)` for an `rm` field already known to be
below 8 (used where the source does not go through `toRegisterW`). -/
def registerWOfNat (n : Nat) : registerW :=
  match n with
  | 0 => .AX
  | 1 => .CX
  | 2 => .DX
  | 3 => .BX
  | 4 => .SP
  | 5 => .BP
  | 6 => .SI
  | _ => .DI

/-- Interrupt handlers of the registry.  `RunExe` installs no custom
handlers, so only the four built-in defaults appear in runs modelled
here (the `09h` default's output goes to the host and is not part of
the machine state). -/
inductive intHandler : Type where
  | h30 | h4a | h4c | h09
deriving DecidableEq

/-- Interpreter state, as the Go `state` struct: registers, `eflags`,
exit code, termination flag and the interrupt-handler registry. -/
structure state : Type where
  ax : Nat := 0
  cx : Nat := 0
  dx : Nat := 0
  bx : Nat := 0
  sp : Nat := 0
  bp : Nat := 0
  si : Nat := 0
  di : Nat := 0
  ss : Nat := 0
  cs : Nat := 0
  ip : Nat := 0
  ds : Nat := 0
  es : Nat := 0
  eflags : Nat := 0
  exitCode : Nat := 0
  shouldExit : Bool := false
  intHandlers : List (Nat × intHandler) := []
deriving DecidableEq

/-- Go's zero value `state{}`, returned by the interpreter on errors. -/
def zeroState : state := {}

def EFLAGS_ZF : Nat := 0x00000040
def EFLAGS_ZF_INV : Nat := 0xffffffbf
def EFLAGS_CF : Nat := 0x00000001
def EFLAGS_CF_INV : Nat := 0xfffffffe
def EFLAGS_DF : Nat := 0x00000200
def EFLAGS_DF_INV : Nat := 0xfffffdff

def state.al (s : state) : Nat := s.ax &&& 0x00ff
def state.cl (s : state) : Nat := s.cx &&& 0x00ff
def state.dl (s : state) : Nat := s.dx &&& 0x00ff
def state.bl (s : state) : Nat := s.bx &&& 0x00ff
def state.ah (s : state) : Nat := s.ax >>> 8
def state.ch (s : state) : Nat := s.cx >>> 8
def state.dh (s : state) : Nat := s.dx >>> 8
def state.bh (s : state) : Nat := s.bx >>> 8

/-- Mirrors `state.realIP`: `address(s.cs << 4 + s.ip)`, all in
`uint16` arithmetic. -/
def state.realIP (s : state) : Nat := w16 (w16 (s.cs <<< 4) + s.ip)

def state.isActiveZF (s : state) : Bool := (s.eflags &&& EFLAGS_ZF) != 0
def state.isNotActiveZF (s : state) : Bool := !s.isActiveZF
def state.setZF (s : state) : state := { s with eflags := s.eflags ||| EFLAGS_ZF }
def state.resetZF (s : state) : state := { s with eflags := s.eflags &&& EFLAGS_ZF_INV }
def state.isActiveCF (s : state) : Bool := (s.eflags &&& EFLAGS_CF) != 0
def state.isNotActiveCF (s : state) : Bool := !s.isActiveCF
def state.setCF (s : state) : state := { s with eflags := s.eflags ||| EFLAGS_CF }
def state.resetCF (s : state) : state := { s with eflags := s.eflags &&& EFLAGS_CF_INV }
def state.isActiveDF (s : state) : Bool := (s.eflags &&& EFLAGS_DF) != 0
def state.isNotActiveDF (s : state) : Bool := !s.isActiveDF
def state.setDF (s : state) : state := { s with eflags := s.eflags ||| EFLAGS_DF }
def state.resetDF (s : state) : state := { s with eflags := s.eflags &&& EFLAGS_DF_INV }

/-- Mirrors `state.readWordGeneralReg`.  The Go function returns an
error on a `registerW` value outside 0–7; the enumerated type makes
that branch unrepresentable, so the accessor is total. -/
def state.readWordGeneralReg (s : state) (r : registerW) : Nat :=
  match r with
  | .AX => s.ax
  | .CX => s.cx
  | .DX => s.dx
  | .BX => s.bx
  | .SP => s.sp
  | .BP => s.bp
  | .SI => s.si
  | .DI => s.di

/-- Mirrors `state.readByteGeneralReg` (total for the same reason). -/
def state.readByteGeneralReg (s : state) (r : registerB) : Nat :=
  match r with
  | .AL => s.al
  | .CL => s.cl
  | .DL => s.dl
  | .BL => s.bl
  | .AH => s.ah
  | .CH => s.ch
  | .DH => s.dh
  | .BH => s.bh

/-- Mirrors `state.readWordSreg`: only ES/CS/SS/DS are readable; FS and
GS are commented out in the source and return an error. -/
def state.readWordSreg (s : state) (r : registerS) : Res Nat :=
  match r with
  | .ES => .ok s.es
  | .CS => .ok s.cs
  | .SS => .ok s.ss
  | .DS => .ok s.ds
  | .FS => .err .illegalRegister
  | .GS => .err .illegalRegister

/-- Mirrors `state.writeByteGeneralReg`: an 8-bit write preserves the
other half of the 16-bit register. -/
def state.writeByteGeneralReg (s : state) (r : registerB) (b : Nat) : state :=
  match r with
  | .AL => { s with ax := (s.ax &&& 0xff00) ||| b }
  | .CL => { s with cx := (s.cx &&& 0xff00) ||| b }
  | .DL => { s with dx := (s.dx &&& 0xff00) ||| b }
  | .BL => { s with bx := (s.bx &&& 0xff00) ||| b }
  | .AH => { s with ax := (s.ax &&& 0x00ff) ||| w16 (b <<< 8) }
  | .CH => { s with cx := (s.cx &&& 0x00ff) ||| w16 (b <<< 8) }
  | .DH => { s with dx := (s.dx &&& 0x00ff) ||| w16 (b <<< 8) }
  | .BH => { s with bx := (s.bx &&& 0x00ff) ||| w16 (b <<< 8) }

/-- Mirrors `state.writeWordGeneralReg` (total). -/
def state.writeWordGeneralReg (s : state) (r : registerW) (w : Nat) : state :=
  match r with
  | .AX => { s with ax := w }
  | .CX => { s with cx := w }
  | .DX => { s with dx := w }
  | .BX => { s with bx := w }
  | .SP => { s with sp := w }
  | .BP => { s with bp := w }
  | .SI => { s with si := w }
  | .DI => { s with di := w }

/-- Mirrors `state.pushWord`: decrement SP by 2 (`uint16` wrap), then
write the word at SS:SP. -/
def state.pushWord (s : state) (w : Nat) (m : memory) : Res (state × memory) :=
  let s' := { s with sp := w16 (s.sp + 65534) }
  match m.writeWord (realAddress s'.ss s'.sp) w with
  | .ok m' => .ok (s', m')
  | .err e => .err e
  | .crash => .crash

/-- Mirrors `state.popWord`: read the word at SS:SP, then increment SP
by 2.  The Go function returns the triple `(word, state, error)`; the
error, if any, travels in the third component. -/
def state.popWord (s : state) (m : memory) : Nat × state × Option emuErr :=
  match m.readWord (realAddress s.ss s.sp) with
  | .ok w => (w, { s with sp := w16 (s.sp + 2) }, none)
  | .error e => (0, s, some e)

/-- Segment-override tag attached to a decoded instruction. -/
structure segmentOverride : Type where
  sreg : registerS
deriving DecidableEq

/-- The tagged instruction set: one constructor per `inst*` struct of
the source, carrying the same operand fields (signed displacements and
relative offsets are `Int`, as Go `int8`/`int16`). -/
inductive inst : Type where
  | instInt (operand : Nat)
  | instMov (dest : registerW) (imm : Nat)
  | instMovReg8Imm8 (dest : registerB) (imm8 : Nat)
  | instMovRegReg (dest : registerW) (src : registerW)
  | instMovSRegReg (dest : registerS) (src : registerW)
  | instMovRegMemBP (dest : registerW) (disp : Int)
  | instMovReg8MemDisp8 (dest : registerB) (base : registerW) (disp8 : Int)
  | instShl (register : registerW) (imm : Nat)
  | instAdd (dest : registerW) (imm : Nat)
  | instSub (dest : registerW) (imm : Nat)
  | instLea (dest : registerW) (addr : Nat)
  | instLeaReg16Disp8 (dest : registerW) (base : registerW) (disp8 : Int)
  | instPush (src : registerW)
  | instPop (dest : registerW)
  | instCall (rel : Int)
  | instRet
  | instJmpRel16 (rel : Int)
  | instSti
  | instAndReg8Imm8 (reg : registerB) (imm8 : Nat)
  | instAndMem8Reg8 (offset : Nat) (reg8 : registerB)
  | instMovMem16Reg16 (offset : Nat) (src : registerW)
  | instMovMem8Reg8 (offset : Nat) (src : registerB)
  | instMovReg16Mem16 (dest : registerW) (offset : Nat)
  | instMovMem16Sreg (offset : Nat) (src : registerS)
  | instAddReg16Reg16 (dest : registerW) (src : registerW)
  | instShrReg16Imm (reg : registerW) (imm : Nat)
  | instShlReg16Imm (reg : registerW) (imm : Nat)
  | instCmpMem8Imm8 (offset : Nat) (imm8 : Int)
  | instCmpMem16Imm8 (offset : Nat) (imm8 : Int)
  | instCmpReg8Imm8 (reg8 : registerB) (imm8 : Int)
  | instCmpReg16Reg16 (first : registerW) (second : registerW)
  | instJneRel8 (rel8 : Int)
  | instMovReg16Sreg (dest : registerW) (src : registerS)
  | instSubReg16Reg16 (dest : registerW) (src : registerW)
  | instSubReg8Reg8 (dest : registerB) (src : registerB)
  | instJb (rel8 : Int)
  | instCld
  | instRepeScasb
  | instRepMovsb
  | instRepStosb
  | instStosb
  | instJeRel8 (rel8 : Int)
  | instInc (dest : registerW)
  | instDec (dest : registerW)
  | instXorReg16Reg16 (dest : registerW) (src : registerW)
deriving DecidableEq

/-- Mirrors `decodeModRegRM`: split one byte into the `mod` (top two
bits), `reg` (middle three) and `rm` (bottom three) fields. -/
def decodeModRegRM (at0 : Nat) (m : memory) : Except emuErr (Nat × Nat × Nat) :=
  match m.readByte at0 with
  | .ok buf => .ok ((buf &&& 0xc0) >>> 6, (buf &&& 0x38) >>> 3, buf &&& 0x07)
  | .error e => .error e

/-- Byte count consumed by the decoder, `int(currentAddress -
initialAddress)` on `uint16` addresses (both below 2^16). -/
def consumed (initialAddress currentAddress : Nat) : Nat :=
  (currentAddress + 65536 - initialAddress) % 65536

/-- Mirrors `decodeInstWithMemory` (fuelled: the `0x26` prefix case
recurses, and an unbounded prefix chain would overflow the Go stack —
`Res.crash` on fuel exhaustion).  Returns the instruction, the byte
count consumed from the fetch point, and the optional segment
override. -/
def decodeInstWithMemoryFuel : Nat → Nat → memory → Res (inst × Nat × Option segmentOverride)
  | 0, _, _ => .crash
  | fuel + 1, initialAddress, m => do
    let rawOpcode ← liftE (m.readByte initialAddress)
    let currentAddress := w16 (initialAddress + 1)
    match rawOpcode with
    | 0x03 => do
      let (mod0, reg, rm) ← liftE (decodeModRegRM currentAddress m)
      let currentAddress := w16 (currentAddress + 1)
      if mod0 == 3 then do
        let dest ← toRegisterW reg
        let src ← toRegisterW rm
        Res.ok (.instAddReg16Reg16 dest src, consumed initialAddress currentAddress, none)
      else
        Res.err .notImplemented
    | 0x20 => do
      let (mod0, reg, rm) ← liftE (decodeModRegRM currentAddress m)
      let currentAddress := w16 (currentAddress + 1)
      match mod0 with
      | 0 => do
        let reg8 ← toRegisterB reg
        match rm with
        | 6 => do
          let offset ← liftE (m.readWord currentAddress)
          let currentAddress := w16 (currentAddress + 2)
          Res.ok (.instAndMem8Reg8 offset reg8, consumed initialAddress currentAddress, none)
        | _ => Res.err .notImplemented
      | _ => Res.err .notImplemented
    | 0x26 =>
      match decodeInstWithMemoryFuel fuel currentAddress m with
      | .ok (inner, readBytes0, _) =>
        Res.ok (inner, readBytes0 + consumed initialAddress currentAddress,
                some ⟨registerS.ES⟩)
      | .err e => Res.err e
      | .crash => Res.crash
    | 0x2a => do
      let (mod0, reg, rm) ← liftE (decodeModRegRM currentAddress m)
      let currentAddress := w16 (currentAddress + 1)
      match mod0 with
      | 3 => do
        let dest ← toRegisterB reg
        let src ← toRegisterB rm
        Res.ok (.instSubReg8Reg8 dest src, consumed initialAddress currentAddress, none)
      | _ => Res.err .notImplemented
    | 0x2b => do
      let (mod0, reg, rm) ← liftE (decodeModRegRM currentAddress m)
      let currentAddress := w16 (currentAddress + 1)
      match mod0 with
      | 3 => do
        let dest ← toRegisterW reg
        let src ← toRegisterW rm
        Res.ok (.instSubReg16Reg16 dest src, consumed initialAddress currentAddress, none)
      | _ => Res.err .notImplemented
    | 0x33 => do
      let (mod0, reg, rm) ← liftE (decodeModRegRM currentAddress m)
      let currentAddress := w16 (currentAddress + 1)
      match mod0 with
      | 3 => do
        let dest ← toRegisterW reg
        let src ← toRegisterW rm
        Res.ok (.instXorReg16Reg16 dest src, consumed initialAddress currentAddress, none)
      | _ => Res.err .notImplemented
    | 0x3b => do
      let (mod0, reg, rm) ← liftE (decodeModRegRM currentAddress m)
      let currentAddress := w16 (currentAddress + 1)
      match mod0 with
      | 3 => do
        let dest ← toRegisterW reg
        let src ← toRegisterW rm
        Res.ok (.instCmpReg16Reg16 dest src, consumed initialAddress currentAddress, none)
      | _ => Res.err .notImplemented
    | 0x3c => do
      let imm8 ← liftE (m.readInt8 currentAddress)
      let currentAddress := w16 (currentAddress + 1)
      Res.ok (.instCmpReg8Imm8 .AL imm8, consumed initialAddress currentAddress, none)
    | 0x40 => Res.ok (.instInc .AX, consumed initialAddress currentAddress, none)
    | 0x41 => Res.ok (.instInc .CX, consumed initialAddress currentAddress, none)
    | 0x42 => Res.ok (.instInc .DX, consumed initialAddress currentAddress, none)
    | 0x43 => Res.ok (.instInc .BX, consumed initialAddress currentAddress, none)
    | 0x44 => Res.ok (.instInc .SP, consumed initialAddress currentAddress, none)
    | 0x45 => Res.ok (.instInc .BP, consumed initialAddress currentAddress, none)
    | 0x46 => Res.ok (.instInc .SI, consumed initialAddress currentAddress, none)
    | 0x47 => Res.ok (.instInc .DI, consumed initialAddress currentAddress, none)
    | 0x48 => Res.ok (.instDec .AX, consumed initialAddress currentAddress, none)
    | 0x49 => Res.ok (.instDec .CX, consumed initialAddress currentAddress, none)
    | 0x4a => Res.ok (.instDec .DX, consumed initialAddress currentAddress, none)
    | 0x4b => Res.ok (.instDec .BX, consumed initialAddress currentAddress, none)
    | 0x4c => Res.ok (.instDec .SP, consumed initialAddress currentAddress, none)
    | 0x4d => Res.ok (.instDec .BP, consumed initialAddress currentAddress, none)
    | 0x4e => Res.ok (.instDec .SI, consumed initialAddress currentAddress, none)
    | 0x4f => Res.ok (.instDec .DI, consumed initialAddress currentAddress, none)
    | 0x50 => Res.ok (.instPush .AX, consumed initialAddress currentAddress, none)
    | 0x51 => Res.ok (.instPush .CX, consumed initialAddress currentAddress, none)
    | 0x52 => Res.ok (.instPush .DX, consumed initialAddress currentAddress, none)
    | 0x53 => Res.ok (.instPush .BX, consumed initialAddress currentAddress, none)
    | 0x54 => Res.ok (.instPush .SP, consumed initialAddress currentAddress, none)
    | 0x55 => Res.ok (.instPush .BP, consumed initialAddress currentAddress, none)
    | 0x56 => Res.ok (.instPush .SI, consumed initialAddress currentAddress, none)
    | 0x57 => Res.ok (.instPush .DI, consumed initialAddress currentAddress, none)
    | 0x58 => Res.ok (.instPop .AX, consumed initialAddress currentAddress, none)
    | 0x59 => Res.ok (.instPop .CX, consumed initialAddress currentAddress, none)
    | 0x5a => Res.ok (.instPop .DX, consumed initialAddress currentAddress, none)
    | 0x5b => Res.ok (.instPop .BX, consumed initialAddress currentAddress, none)
    | 0x5c => Res.ok (.instPop .SP, consumed initialAddress currentAddress, none)
    | 0x5d => Res.ok (.instPop .BP, consumed initialAddress currentAddress, none)
    | 0x5e => Res.ok (.instPop .SI, consumed initialAddress currentAddress, none)
    | 0x5f => Res.ok (.instPop .DI, consumed initialAddress currentAddress, none)
    | 0x72 => do
      let offset ← liftE (m.readInt8 currentAddress)
      let currentAddress := w16 (currentAddress + 1)
      Res.ok (.instJb offset, consumed initialAddress currentAddress, none)
    | 0x74 => do
      let imm8 ← liftE (m.readInt8 currentAddress)
      let currentAddress := w16 (currentAddress + 1)
      Res.ok (.instJeRel8 imm8, consumed initialAddress currentAddress, none)
    | 0x75 => do
      let imm8 ← liftE (m.readInt8 currentAddress)
      let currentAddress := w16 (currentAddress + 1)
      Res.ok (.instJneRel8 imm8, consumed initialAddress currentAddress, none)
    | 0x80 => do
      let (mod0, reg, rm) ← liftE (decodeModRegRM currentAddress m)
      let currentAddress := w16 (currentAddress + 1)
      match reg with
      | 4 =>
        if mod0 != 3 then
          Res.err .notImplemented
        else do
          let imm ← liftE (m.readByte currentAddress)
          let currentAddress := w16 (currentAddress + 1)
          let regB ← toRegisterB rm
          Res.ok (.instAndReg8Imm8 regB imm, consumed initialAddress currentAddress, none)
      | 7 =>
        if mod0 != 0 then
          Res.err .notImplemented
        else if rm != 6 then
          Res.err .notImplemented
        else do
          let offset ← liftE (m.readWord currentAddress)
          let currentAddress := w16 (currentAddress + 2)
          let imm ← liftE (m.readInt8 currentAddress)
          let currentAddress := w16 (currentAddress + 1)
          Res.ok (.instCmpMem8Imm8 offset imm, consumed initialAddress currentAddress, none)
      | _ => Res.err .notImplemented
    | 0x83 => do
      let (mod0, reg, rm) ← liftE (decodeModRegRM currentAddress m)
      let currentAddress := w16 (currentAddress + 1)
      match reg with
      | 0 =>
        if mod0 != 3 then
          Res.err .notImplemented
        else do
          let imm ← liftE (m.readByte currentAddress)
          let currentAddress := w16 (currentAddress + 1)
          match rm with
          | 0 => Res.ok (.instAdd .AX imm, consumed initialAddress currentAddress, none)
          | 1 => Res.ok (.instAdd .CX imm, consumed initialAddress currentAddress, none)
          | 2 => Res.ok (.instAdd .DX imm, consumed initialAddress currentAddress, none)
          | 3 => Res.ok (.instAdd .BX imm, consumed initialAddress currentAddress, none)
          | 4 => Res.ok (.instAdd .SP imm, consumed initialAddress currentAddress, none)
          | _ => Res.err .illegalRegister
      | 5 =>
        if mod0 != 3 then
          Res.err .notImplemented
        else do
          let imm ← liftE (m.readByte currentAddress)
          let currentAddress := w16 (currentAddress + 1)
          match rm with
          | 0 => Res.ok (.instSub .AX imm, consumed initialAddress currentAddress, none)
          | 2 => Res.ok (.instSub .DX imm, consumed initialAddress currentAddress, none)
          | 1 => Res.ok (.instSub .CX imm, consumed initialAddress currentAddress, none)
          | 4 => Res.ok (.instSub .SP imm, consumed initialAddress currentAddress, none)
          | _ => Res.err .illegalRegister
      | 7 =>
        match mod0 with
        | 0 => do
          let offset ← liftE (m.readWord currentAddress)
          let currentAddress := w16 (currentAddress + 2)
          let imm8 ← liftE (m.readInt8 currentAddress)
          let currentAddress := w16 (currentAddress + 1)
          Res.ok (.instCmpMem16Imm8 offset imm8, consumed initialAddress currentAddress, none)
        | _ => Res.err .notImplemented
      | _ => Res.err .notImplemented
    | 0x88 => do
      let (mod0, reg, rm) ← liftE (decodeModRegRM currentAddress m)
      let currentAddress := w16 (currentAddress + 1)
      if mod0 == 0 then do
        let src ← toRegisterB reg
        match rm with
        | 6 => do
          let offset ← liftE (m.readWord currentAddress)
          let currentAddress := w16 (currentAddress + 2)
          Res.ok (.instMovMem8Reg8 offset src, consumed initialAddress currentAddress, none)
        | _ => Res.err .notImplemented
      else
        Res.err .notImplemented
    | 0x89 => do
      let (mod0, reg, rm) ← liftE (decodeModRegRM currentAddress m)
      let currentAddress := w16 (currentAddress + 1)
      if mod0 == 0 then do
        let src ← toRegisterW reg
        match rm with
        | 6 => do
          let offset ← liftE (m.readWord currentAddress)
          let currentAddress := w16 (currentAddress + 2)
          Res.ok (.instMovMem16Reg16 offset src, consumed initialAddress currentAddress, none)
        | _ => Res.err .notImplemented
      else
        Res.err .notImplemented
    | 0x8a => do
      let (mod0, reg, rm) ← liftE (decodeModRegRM currentAddress m)
      let currentAddress := w16 (currentAddress + 1)
      match mod0 with
      | 1 => do
        let dest ← toRegisterB reg
        match rm with
        | 5 => do
          let disp8 ← liftE (m.readInt8 currentAddress)
          let currentAddress := w16 (currentAddress + 1)
          Res.ok (.instMovReg8MemDisp8 dest .DI disp8,
                  consumed initialAddress currentAddress, none)
        | _ => Res.err .notImplemented
      | _ => Res.err .notImplemented
    | 0x8b => do
      let (mod0, reg, rm) ← liftE (decodeModRegRM currentAddress m)
      let currentAddress := w16 (currentAddress + 1)
      if mod0 == 3 then do
        let dest ← toRegisterW reg
        let src ← toRegisterW rm
        Res.ok (.instMovRegReg dest src, consumed initialAddress currentAddress, none)
      else if mod0 == 1 then do
        let dest ← toRegisterW reg
        match rm with
        | 6 => do
          let disp ← liftE (m.readInt8 currentAddress)
          let currentAddress := w16 (currentAddress + 1)
          Res.ok (.instMovRegMemBP dest disp, consumed initialAddress currentAddress, none)
        | _ => Res.err .notImplemented
      else if mod0 == 0 then do
        let dest ← toRegisterW reg
        match rm with
        | 6 => do
          let offset ← liftE (m.readWord currentAddress)
          let currentAddress := w16 (currentAddress + 2)
          Res.ok (.instMovReg16Mem16 dest offset, consumed initialAddress currentAddress, none)
        | _ => Res.err .notImplemented
      else
        Res.err .notImplemented
    | 0x8c => do
      let (mod0, reg, rm) ← liftE (decodeModRegRM currentAddress m)
      let currentAddress := w16 (currentAddress + 1)
      match mod0 with
      | 0 => do
        let src ← toRegisterS reg
        match rm with
        | 6 => do
          let offset ← liftE (m.readWord currentAddress)
          let currentAddress := w16 (currentAddress + 2)
          Res.ok (.instMovMem16Sreg offset src, consumed initialAddress currentAddress, none)
        | _ => Res.err .notImplemented
      | 3 => do
        let sreg ← toRegisterS reg
        Res.ok (.instMovReg16Sreg (registerWOfNat rm) sreg,
                consumed initialAddress currentAddress, none)
      | _ => Res.err .notImplemented
    | 0x8d => do
      let (mod0, reg, rm) ← liftE (decodeModRegRM currentAddress m)
      let currentAddress := w16 (currentAddress + 1)
      match mod0 with
      | 0 =>
        match rm with
        | 6 => do
          let dest ← toRegisterW reg
          let addr ← liftE (m.readWord currentAddress)
          let currentAddress := w16 (currentAddress + 2)
          Res.ok (.instLea dest addr, consumed initialAddress currentAddress, none)
        | _ => Res.err .notImplemented
      | 1 => do
        let dest ← toRegisterW reg
        let disp8 :=
          match m.readInt8 currentAddress with
          | .ok d => d
          | .error _ => 0
        let currentAddress := w16 (currentAddress + 1)
        match rm with
        | 5 =>
          Res.ok (.instLeaReg16Disp8 dest .DI disp8,
                  consumed initialAddress currentAddress, none)
        | _ => Res.err .notImplemented
      | _ => Res.err .notImplemented
    | 0x8e => do
      let (mod0, reg, rm) ← liftE (decodeModRegRM currentAddress m)
      let currentAddress := w16 (currentAddress + 1)
      if mod0 == 3 then do
        let dest ← toRegisterS reg
        let src ← toRegisterW rm
        Res.ok (.instMovSRegReg dest src, consumed initialAddress currentAddress, none)
      else
        Res.err .notImplemented
    | 0xa1 => do
      let imm ← liftE (m.readWord currentAddress)
      let currentAddress := w16 (currentAddress + 2)
      Res.ok (.instMovReg16Mem16 .AX imm, consumed initialAddress currentAddress, none)
    | 0xa2 => do
      let offset ← liftE (m.readWord currentAddress)
      let currentAddress := w16 (currentAddress + 2)
      Res.ok (.instMovMem8Reg8 offset .AL, consumed initialAddress currentAddress, none)
    | 0xa3 => do
      let offset ← liftE (m.readWord currentAddress)
      let currentAddress := w16 (currentAddress + 2)
      Res.ok (.instMovMem16Reg16 offset .AX, consumed initialAddress currentAddress, none)
    | 0xaa => Res.ok (.instStosb, consumed initialAddress currentAddress, none)
    | 0xb0 => do
      let imm ← liftE (m.readByte currentAddress)
      let currentAddress := w16 (currentAddress + 1)
      Res.ok (.instMovReg8Imm8 .AL imm, consumed initialAddress currentAddress, none)
    | 0xb1 => do
      let imm ← liftE (m.readByte currentAddress)
      let currentAddress := w16 (currentAddress + 1)
      Res.ok (.instMovReg8Imm8 .CL imm, consumed initialAddress currentAddress, none)
    | 0xb2 => do
      let imm ← liftE (m.readByte currentAddress)
      let currentAddress := w16 (currentAddress + 1)
      Res.ok (.instMovReg8Imm8 .DL imm, consumed initialAddress currentAddress, none)
    | 0xb3 => do
      let imm ← liftE (m.readByte currentAddress)
      let currentAddress := w16 (currentAddress + 1)
      Res.ok (.instMovReg8Imm8 .BL imm, consumed initialAddress currentAddress, none)
    | 0xb4 => do
      let imm ← liftE (m.readByte currentAddress)
      let currentAddress := w16 (currentAddress + 1)
      Res.ok (.instMovReg8Imm8 .AH imm, consumed initialAddress currentAddress, none)
    | 0xb5 => do
      let imm ← liftE (m.readByte currentAddress)
      let currentAddress := w16 (currentAddress + 1)
      Res.ok (.instMovReg8Imm8 .CH imm, consumed initialAddress currentAddress, none)
    | 0xb6 => do
      let imm ← liftE (m.readByte currentAddress)
      let currentAddress := w16 (currentAddress + 1)
      Res.ok (.instMovReg8Imm8 .DH imm, consumed initialAddress currentAddress, none)
    | 0xb7 => do
      let imm ← liftE (m.readByte currentAddress)
      let currentAddress := w16 (currentAddress + 1)
      Res.ok (.instMovReg8Imm8 .BH imm, consumed initialAddress currentAddress, none)
    | 0xb8 => do
      let imm ← liftE (m.readWord currentAddress)
      let currentAddress := w16 (currentAddress + 2)
      Res.ok (.instMov .AX imm, consumed initialAddress currentAddress, none)
    | 0xb9 => do
      let imm ← liftE (m.readWord currentAddress)
      let currentAddress := w16 (currentAddress + 2)
      Res.ok (.instMov .CX imm, consumed initialAddress currentAddress, none)
    | 0xba => do
      let imm ← liftE (m.readWord currentAddress)
      let currentAddress := w16 (currentAddress + 2)
      Res.ok (.instMov .DX imm, consumed initialAddress currentAddress, none)
    | 0xbb => do
      let imm ← liftE (m.readWord currentAddress)
      let currentAddress := w16 (currentAddress + 2)
      Res.ok (.instMov .BX imm, consumed initialAddress currentAddress, none)
    | 0xbc => do
      let imm ← liftE (m.readWord currentAddress)
      let currentAddress := w16 (currentAddress + 2)
      Res.ok (.instMov .SP imm, consumed initialAddress currentAddress, none)
    | 0xbd => do
      let imm ← liftE (m.readWord currentAddress)
      let currentAddress := w16 (currentAddress + 2)
      Res.ok (.instMov .BP imm, consumed initialAddress currentAddress, none)
    | 0xbe => do
      let imm ← liftE (m.readWord currentAddress)
      let currentAddress := w16 (currentAddress + 2)
      Res.ok (.instMov .SI imm, consumed initialAddress currentAddress, none)
    | 0xbf => do
      let imm ← liftE (m.readWord currentAddress)
      let currentAddress := w16 (currentAddress + 2)
      Res.ok (.instMov .DI imm, consumed initialAddress currentAddress, none)
    | 0xc1 => do
      let (mod0, reg, rm) ← liftE (decodeModRegRM currentAddress m)
      let currentAddress := w16 (currentAddress + 1)
      if mod0 != 3 then
        Res.err .notImplemented
      else if reg != 4 then
        Res.err .notImplemented
      else do
        let imm ← liftE (m.readByte currentAddress)
        let currentAddress := w16 (currentAddress + 1)
        match rm with
        | 0 => Res.ok (.instShl .AX imm, consumed initialAddress currentAddress, none)
        | 1 => Res.ok (.instShl .CX imm, consumed initialAddress currentAddress, none)
        | _ => Res.err .illegalRegister
    | 0xc3 => Res.ok (.instRet, consumed initialAddress currentAddress, none)
    | 0xcd => do
      let operand ← liftE (m.readByte currentAddress)
      let currentAddress := w16 (currentAddress + 1)
      Res.ok (.instInt operand, consumed initialAddress currentAddress, none)
    | 0xd1 => do
      let (mod0, reg, rm) ← liftE (decodeModRegRM currentAddress m)
      let currentAddress := w16 (currentAddress + 1)
      if mod0 == 3 then
        match reg with
        | 4 => do
          let r ← toRegisterW rm
          Res.ok (.instShlReg16Imm r 1, consumed initialAddress currentAddress, none)
        | 5 => do
          let r ← toRegisterW rm
          Res.ok (.instShrReg16Imm r 1, consumed initialAddress currentAddress, none)
        | _ => Res.err .notImplemented
      else
        Res.err .notImplemented
    | 0xe8 => do
      let rel ← liftE (m.readInt16 currentAddress)
      let currentAddress := w16 (currentAddress + 2)
      Res.ok (.instCall rel, consumed initialAddress currentAddress, none)
    | 0xe9 => do
      let rel ← liftE (m.readInt16 currentAddress)
      let currentAddress := w16 (currentAddress + 2)
      Res.ok (.instJmpRel16 rel, consumed initialAddress currentAddress, none)
    | 0xf3 => do
      let stringOperation ← liftE (m.readByte currentAddress)
      let currentAddress := w16 (currentAddress + 1)
      match stringOperation with
      | 0xa4 => Res.ok (.instRepMovsb, consumed initialAddress currentAddress, none)
      | 0xaa => Res.ok (.instRepStosb, consumed initialAddress currentAddress, none)
      | 0xae => Res.ok (.instRepeScasb, consumed initialAddress currentAddress, none)
      | _ => Res.err .notImplemented
    | 0xfb => Res.ok (.instSti, consumed initialAddress currentAddress, none)
    | 0xfc => Res.ok (.instCld, consumed initialAddress currentAddress, none)
    | _ => Res.err (.unknownOpcode rawOpcode)

/-- The decoder entry point used by the interpreter loop. -/
def decodeInstWithMemory (initialAddress : Nat) (m : memory) :
    Res (inst × Nat × Option segmentOverride) :=
  decodeInstWithMemoryFuel 65537 initialAddress m

/-- Mirrors `execMov` (mov r16, imm16). -/
def execMov (dest : registerW) (imm : Nat) (s : state) : Res state :=
  match dest with
  | .AX => .ok { s with ax := imm }
  | .CX => .ok { s with cx := imm }
  | .DX => .ok { s with dx := imm }
  | .BX => .ok { s with bx := imm }
  | .SP => .ok { s with sp := imm }
  | .BP => .ok { s with bp := imm }
  | .SI => .ok { s with si := imm }
  | .DI => .ok { s with di := imm }

/-- Mirrors `execMovReg8Imm8`: note the Go expression
`uint16(imm8) + 0xff00 & uint16(reg)` — `&` binds tighter than `+`, so
the other half of the register is preserved. -/
def execMovReg8Imm8 (dest : registerB) (imm8 : Nat) (s : state) : Res state :=
  match dest with
  | .AL => .ok { s with ax := w16 (imm8 + (0xff00 &&& s.ax)) }
  | .CL => .ok { s with cx := w16 (imm8 + (0xff00 &&& s.cx)) }
  | .DL => .ok { s with dx := w16 (imm8 + (0xff00 &&& s.dx)) }
  | .BL => .ok { s with bx := w16 (imm8 + (0xff00 &&& s.bx)) }
  | .AH => .ok { s with ax := w16 (w16 (imm8 <<< 8) + (0x00ff &&& s.ax)) }
  | .CH => .ok { s with cx := w16 (w16 (imm8 <<< 8) + (0x00ff &&& s.cx)) }
  | .DH => .ok { s with dx := w16 (w16 (imm8 <<< 8) + (0x00ff &&& s.dx)) }
  | .BH => .ok { s with bx := w16 (w16 (imm8 <<< 8) + (0x00ff &&& s.bx)) }

/-- Mirrors `execMovRegReg`. -/
def execMovRegReg (dest src : registerW) (s : state) : Res state :=
  let v := s.readWordGeneralReg src
  match dest with
  | .AX => .ok { s with ax := v }
  | .CX => .ok { s with cx := v }
  | .DX => .ok { s with dx := v }
  | .BX => .ok { s with bx := v }
  | .SP => .ok { s with sp := v }
  | .BP => .ok { s with bp := v }
  | .SI => .ok { s with si := v }
  | .DI => .ok { s with di := v }

/-- Mirrors `execMovSRegReg`: only ES, SS and DS are writable; any
other destination segment register is an error. -/
def execMovSRegReg (dest : registerS) (src : registerW) (s : state) : Res state :=
  let v := s.readWordGeneralReg src
  match dest with
  | .ES => .ok { s with es := v }
  | .SS => .ok { s with ss := v }
  | .DS => .ok { s with ds := v }
  | _ => .err .illegalRegister

/-- Mirrors `execMovRegMemBP`: effective address
`address(int(realAddress(ss, BP)) + int(disp))`. -/
def execMovRegMemBP (dest : registerW) (disp : Int) (s : state) (m : memory) : Res state := do
  let base := s.readWordGeneralReg .BP
  let at0 := castWord ((realAddress s.ss base : Int) + disp)
  let v ← liftE (m.readWord at0)
  Res.ok (s.writeWordGeneralReg dest v)

/-- Mirrors `execMovReg8MemDisp8`: always resolves the base against DS
(the function receives no segment override). -/
def execMovReg8MemDisp8 (dest : registerB) (base : registerW) (disp8 : Int)
    (s : state) (m : memory) : Res state := do
  let baseV := s.readWordGeneralReg base
  let at0 := castWord ((realAddress s.ds baseV : Int) + disp8)
  let v ← liftE (m.readByte at0)
  Res.ok (s.writeByteGeneralReg dest v)

/-- Mirrors `execShl` (shl r16, imm8; flags untouched). -/
def execShl (register : registerW) (imm : Nat) (s : state) : Res state :=
  match register with
  | .AX => .ok { s with ax := w16 (s.ax <<< imm) }
  | .CX => .ok { s with cx := w16 (s.cx <<< imm) }
  | .DX => .ok { s with dx := w16 (s.dx <<< imm) }
  | .BX => .ok { s with bx := w16 (s.bx <<< imm) }
  | _ => .err .illegalRegister

/-- Mirrors `execAdd` (add r16, imm8; flags untouched). -/
def execAdd (dest : registerW) (imm : Nat) (s : state) : Res state :=
  match dest with
  | .AX => .ok { s with ax := w16 (s.ax + imm) }
  | .CX => .ok { s with cx := w16 (s.cx + imm) }
  | .DX => .ok { s with dx := w16 (s.dx + imm) }
  | .BX => .ok { s with bx := w16 (s.bx + imm) }
  | .SP => .ok { s with sp := w16 (s.sp + imm) }
  | _ => .err .illegalRegister

/-- Mirrors `execSub` (sub r16, imm8; `uint16` wrap on underflow). -/
def execSub (dest : registerW) (imm : Nat) (s : state) : Res state :=
  match dest with
  | .AX => .ok { s with ax := w16 (s.ax + 65536 - w16 imm) }
  | .DX => .ok { s with dx := w16 (s.dx + 65536 - w16 imm) }
  | .CX => .ok { s with cx := w16 (s.cx + 65536 - w16 imm) }
  | .SP => .ok { s with sp := w16 (s.sp + 65536 - w16 imm) }
  | _ => .err .illegalRegister

/-- Mirrors `execLea` (lea r16, m with a pure disp16 operand). -/
def execLea (dest : registerW) (addr : Nat) (s : state) : Res state :=
  match dest with
  | .AX => .ok { s with ax := addr }
  | .CX => .ok { s with cx := addr }
  | .DX => .ok { s with dx := addr }
  | _ => .err .illegalRegister

/-- Mirrors `execInstLeaReg16Disp8`:
`word(realAddress(DS, base) + address(disp8))`. -/
def execInstLeaReg16Disp8 (dest base : registerW) (disp8 : Int)
    (s : state) (_m : memory) : Res state := do
  let vBase := s.readWordGeneralReg base
  let vDS ← s.readWordSreg .DS
  let leaVal := w16 (realAddress vDS vBase + castWord disp8)
  match dest with
  | .AX => Res.ok { s with ax := leaVal }
  | .CX => Res.ok { s with cx := leaVal }
  | .DX => Res.ok { s with dx := leaVal }
  | .BX => Res.ok { s with bx := leaVal }
  | .SP => Res.ok { s with sp := leaVal }
  | .BP => Res.ok { s with bp := leaVal }
  | .SI => Res.ok { s with si := leaVal }
  | .DI => Res.ok { s with di := leaVal }

/-- The `'$'`-scanning loop of `intHandler09`: read bytes at DS:DX
until a `'$'` (0x24) terminator; a read error propagates; if no
terminator is ever reached the Go loop never returns (`crash` after
one full wrap of the 16-bit cursor). -/
def printLoop (m : memory) (addr : Nat) : Nat → Res Unit
  | 0 => .crash
  | fuel + 1 =>
    match m.readByte addr with
    | .error e => .err e
    | .ok b =>
      if b == 0x24 then .ok ()
      else printLoop m (w16 (addr + 1)) fuel

/-- Run one interrupt handler from the registry.  `h4c` sets the exit
code from AL and the termination flag; `h09` walks the `'$'`-terminated
string (its host-side output is outside the machine state); `h30` and
`h4a` do nothing. -/
def runIntHandler (h : intHandler) (s : state) (m : memory) : Res state :=
  match h with
  | .h30 => .ok s
  | .h4a => .ok s
  | .h4c => .ok { s with exitCode := s.al, shouldExit := true }
  | .h09 =>
    match printLoop m (realAddress s.ds s.dx) 65537 with
    | .ok _ => .ok s
    | .err e => .err e
    | .crash => .crash

/-- Mirrors `execInt`: only `int 0x21` dispatches, through the
registry keyed by AH; a missing handler or another interrupt number is
an error. -/
def execInt (operand : Nat) (s : state) (m : memory) : Res state :=
  match operand with
  | 0x21 =>
    match s.intHandlers.lookup s.ah with
    | some h => runIntHandler h s m
    | none => .err (.noIntHandler s.ah)
  | op => .err (.unknownIntOperand op)

/-- Mirrors `execPush`. -/
def execPush (src : registerW) (s : state) (m : memory) : Res (state × memory) :=
  s.pushWord (s.readWordGeneralReg src) m

/-- Mirrors `execPop` — including its bug: the error component of
`popWord` is assigned to `err` and immediately overwritten by the
(always-nil) error of `writeWordGeneralReg` without ever being
checked, so a failed stack read yields a successor state with the
zero word written to the destination and no error. -/
def execPop (dest : registerW) (s : state) (m : memory) : Res state :=
  let (w, s1, _) := s.popWord m
  .ok (s1.writeWordGeneralReg dest w)

/-- Mirrors `execCall`: push the post-advance IP, then add the
relative offset in `int16` arithmetic. -/
def execCall (rel : Int) (s : state) (m : memory) : Res (state × memory) := do
  let (s1, m1) ← s.pushWord s.ip m
  Res.ok ({ s1 with ip := castWord (int16OfWord s1.ip + rel) }, m1)

/-- Mirrors `execRet`: pop the return address into IP (here the popped
error is checked, unlike in `execPop`). -/
def execRet (s : state) (m : memory) : Res state :=
  match s.popWord m with
  | (returnAddress, s1, none) => .ok { s1 with ip := returnAddress }
  | (_, _, some e) => .err e

/-- Mirrors `execJmpRel16`. -/
def execJmpRel16 (rel : Int) (s : state) : Res state :=
  .ok { s with ip := castWord (int16OfWord s.ip + rel) }

/-- Mirrors `execSti` (no effect). -/
def execSti (s : state) : Res state := .ok s

/-- Mirrors `execAndReg8Imm8`: `reg &= word(0xff << 8) + imm8` (the
high half is preserved by the all-ones high mask). -/
def execAndReg8Imm8 (reg : registerB) (imm8 : Nat) (s : state) : Res state :=
  match reg with
  | .AL => .ok { s with ax := s.ax &&& w16 (0xff00 + imm8) }
  | .CL => .ok { s with cx := s.cx &&& w16 (0xff00 + imm8) }
  | .DL => .ok { s with dx := s.dx &&& w16 (0xff00 + imm8) }
  | .BL => .ok { s with bx := s.bx &&& w16 (0xff00 + imm8) }
  | _ => .err .illegalRegister

/-- Mirrors `execAndMem8Reg8`: read the byte at DS:offset, AND it into
the register (flags untouched). -/
def execAndMem8Reg8 (offset : Nat) (reg8 : registerB) (s : state) (m : memory) :
    Res state := do
  let vReg := s.readByteGeneralReg reg8
  let vMem ← liftE (m.readByte (realAddress s.ds offset))
  Res.ok (s.writeByteGeneralReg reg8 (vReg &&& vMem))

/-- Mirrors `execMovMem16Reg16`: a segment override (only ES) redirects
DS for the duration of the instruction; DS is restored before
returning. -/
def execMovMem16Reg16 (offset : Nat) (src : registerW) (s : state) (m : memory)
    (so : Option segmentOverride) : Res (state × memory) := do
  let initDS := s.ds
  let s ← match so with
    | none => Res.ok s
    | some ov =>
      match ov.sreg with
      | .ES => Res.ok { s with ds := s.es }
      | _ => Res.err .notImplemented
  let v := s.readWordGeneralReg src
  let m' ← m.writeWord (realAddress s.ds offset) v
  Res.ok ({ s with ds := initDS }, m')

/-- Mirrors `execMovMem8Reg8` (same override protocol). -/
def execMovMem8Reg8 (offset : Nat) (src : registerB) (s : state) (m : memory)
    (so : Option segmentOverride) : Res (state × memory) := do
  let initDS := s.ds
  let s ← match so with
    | none => Res.ok s
    | some ov =>
      match ov.sreg with
      | .ES => Res.ok { s with ds := s.es }
      | _ => Res.err .notImplemented
  let v := s.readByteGeneralReg src
  let m' ← m.writeByte (realAddress s.ds offset) v
  Res.ok ({ s with ds := initDS }, m')

/-- Mirrors `execMovReg16Mem16` (same override protocol). -/
def execMovReg16Mem16 (dest : registerW) (offset : Nat) (s : state) (m : memory)
    (so : Option segmentOverride) : Res state := do
  let initDS := s.ds
  let s ← match so with
    | none => Res.ok s
    | some ov =>
      match ov.sreg with
      | .ES => Res.ok { s with ds := s.es }
      | _ => Res.err .notImplemented
  let v ← liftE (m.readWord (realAddress s.ds offset))
  let s := s.writeWordGeneralReg dest v
  Res.ok { s with ds := initDS }

/-- Mirrors `execMovMem16Sreg` (same override protocol). -/
def execMovMem16Sreg (offset : Nat) (src : registerS) (s : state) (m : memory)
    (so : Option segmentOverride) : Res (state × memory) := do
  let initDS := s.ds
  let s ← match so with
    | none => Res.ok s
    | some ov =>
      match ov.sreg with
      | .ES => Res.ok { s with ds := s.es }
      | _ => Res.err .notImplemented
  let v ← s.readWordSreg src
  let m' ← m.writeWord (realAddress s.ds offset) v
  Res.ok ({ s with ds := initDS }, m')

/-- Mirrors `execAddReg16Reg16` (flags untouched). -/
def execAddReg16Reg16 (dest src : registerW) (s : state) : Res state :=
  let srcValue := s.readWordGeneralReg src
  let destValue := s.readWordGeneralReg dest
  .ok (s.writeWordGeneralReg dest (w16 (srcValue + destValue)))

/-- Mirrors `execShrReg16Imm` (always a shift by one). -/
def execShrReg16Imm (reg : registerW) (s : state) : Res state :=
  let v := s.readWordGeneralReg reg
  .ok (s.writeWordGeneralReg reg (v >>> 1))

/-- Mirrors `execShlReg16Imm` (always a shift by one). -/
def execShlReg16Imm (reg : registerW) (s : state) : Res state :=
  let v := s.readWordGeneralReg reg
  .ok (s.writeWordGeneralReg reg (w16 (v <<< 1)))

/-- Mirrors `execInstCmpMem8Imm8`: the memory byte is read through
`readInt8` and compared with the immediate as SIGNED `int8` values;
ZF is set exactly on equality, CF exactly on (signed) less-than, and
DF is untouched.  DS honours the override and is restored. -/
def execInstCmpMem8Imm8 (offset : Nat) (imm8 : Int) (s : state) (m : memory)
    (so : Option segmentOverride) : Res state := do
  let initDS := s.ds
  let s ← match so with
    | none => Res.ok s
    | some ov =>
      match ov.sreg with
      | .ES => Res.ok { s with ds := s.es }
      | _ => Res.err .notImplemented
  let v ← liftE (m.readInt8 (realAddress s.ds offset))
  let s :=
    if v = imm8 then s.setZF.resetCF
    else if v < imm8 then s.resetZF.setCF
    else s.resetZF.resetCF
  Res.ok { s with ds := initDS }

/-- Mirrors `execInstCmpMem16Imm8`: signed `int16` comparison of the
memory word against the sign-extended immediate (no override
parameter in the source). -/
def execInstCmpMem16Imm8 (offset : Nat) (imm8 : Int) (s : state) (m : memory) :
    Res state := do
  let v ← liftE (m.readInt16 (realAddress s.ds offset))
  if v = imm8 then Res.ok s.setZF.resetCF
  else if v < imm8 then Res.ok s.resetZF.setCF
  else Res.ok s.resetZF.resetCF

/-- Mirrors `execInstCmpReg8Imm8`: the register byte is compared with
`uint8(imm8)` — an UNSIGNED comparison. -/
def execInstCmpReg8Imm8 (reg8 : registerB) (imm8 : Int) (s : state) : Res state :=
  let v := s.readByteGeneralReg reg8
  if v = castByte imm8 then .ok s.setZF.resetCF
  else if v < castByte imm8 then .ok s.resetZF.setCF
  else .ok s.resetZF.resetCF

/-- Mirrors `execInstCmpReg16Reg16`: unsigned 16-bit comparison. -/
def execInstCmpReg16Reg16 (first second : registerW) (s : state) : Res state :=
  let firstV := s.readWordGeneralReg first
  let secondV := s.readWordGeneralReg second
  if firstV = secondV then .ok s.setZF.resetCF
  else if firstV < secondV then .ok s.resetZF.setCF
  else .ok s.resetZF.resetCF

/-- Mirrors `execInstJneRel8`. -/
def execInstJneRel8 (rel8 : Int) (s : state) : Res state :=
  if s.isNotActiveZF then .ok { s with ip := castWord (int16OfWord s.ip + rel8) }
  else .ok s

/-- Mirrors `execInstMovReg16Sreg`. -/
def execInstMovReg16Sreg (dest : registerW) (src : registerS) (s : state) : Res state := do
  let v ← s.readWordSreg src
  Res.ok (s.writeWordGeneralReg dest v)

/-- Mirrors `execInstSubReg16Reg16` (flags untouched, `uint16` wrap). -/
def execInstSubReg16Reg16 (dest src : registerW) (s : state) : Res state :=
  let srcV := s.readWordGeneralReg src
  let destV := s.readWordGeneralReg dest
  .ok (s.writeWordGeneralReg dest (w16 (destV + 65536 - w16 srcV)))

/-- Mirrors `execInstSubReg8Reg8` (flags untouched, `uint8` wrap). -/
def execInstSubReg8Reg8 (dest src : registerB) (s : state) : Res state :=
  let srcV := s.readByteGeneralReg src
  let destV := s.readByteGeneralReg dest
  .ok (s.writeByteGeneralReg dest ((destV + 256 - srcV % 256) % 256))

/-- Mirrors `execInstJb`. -/
def execInstJb (rel8 : Int) (s : state) : Res state :=
  if s.isActiveCF then .ok { s with ip := castWord (int16OfWord s.ip + rel8) }
  else .ok s

/-- Mirrors `execInstCld`. -/
def execInstCld (s : state) : Res state := .ok s.resetDF

/-- Mirrors `execScasb`: compare AL with the byte at ES:DI, set/reset
ZF, then step DI by ±1 per DF. -/
def execScasb (s : state) (m : memory) : Res state := do
  let vAL := s.readByteGeneralReg .AL
  let vSeg ← s.readWordSreg .ES
  let vDI := s.readWordGeneralReg .DI
  let vMem ← liftE (m.readByte (realAddress vSeg vDI))
  let s := if vAL = vMem then s.setZF else s.resetZF
  if s.isNotActiveDF then
    Res.ok (s.writeWordGeneralReg .DI (w16 (vDI + 1)))
  else
    Res.ok (s.writeWordGeneralReg .DI (w16 (vDI + 65535)))

/-- Mirrors `execMovsb`: copy one byte DS:SI → ES:DI, stepping SI and
DI by ±1 per DF. -/
def execMovsb (s : state) (m : memory) : Res (state × memory) := do
  let vDS ← s.readWordSreg .DS
  let vES ← s.readWordSreg .ES
  let vSI := s.readWordGeneralReg .SI
  let vDI := s.readWordGeneralReg .DI
  let vMem ← liftE (m.readByte (realAddress vDS vSI))
  let m' ← m.writeByte (realAddress vES vDI) vMem
  if s.isNotActiveDF then
    Res.ok (((s.writeWordGeneralReg .SI (w16 (vSI + 1))).writeWordGeneralReg .DI
      (w16 (vDI + 1))), m')
  else
    Res.ok (((s.writeWordGeneralReg .SI (w16 (vSI + 65535))).writeWordGeneralReg .DI
      (w16 (vDI + 65535))), m')

/-- Mirrors `execStosb`: store AL at ES:DI, stepping DI by ±1 per
DF. -/
def execStosb (s : state) (m : memory) : Res (state × memory) := do
  let vES ← s.readWordSreg .ES
  let vDI := s.readWordGeneralReg .DI
  let vAL := s.readByteGeneralReg .AL
  let m' ← m.writeByte (realAddress vES vDI) vAL
  if s.isNotActiveDF then
    Res.ok (s.writeWordGeneralReg .DI (w16 (vDI + 1)), m')
  else
    Res.ok (s.writeWordGeneralReg .DI (w16 (vDI + 65535)), m')

/-- Countdown loop of `execInstRepeScasb`: step while the counter is
positive and ZF holds, returning the residual counter. -/
def repeScasbLoop : Nat → state → memory → Res (Nat × state)
  | 0, s, _ => .ok (0, s)
  | c + 1, s, m =>
    if s.isActiveZF then do
      let s' ← execScasb s m
      repeScasbLoop c s' m
    else
      .ok (c + 1, s)

/-- Mirrors `execInstRepeScasb`: loop on CX (and ZF), then store the
residual count back into CX. -/
def execInstRepeScasb (s : state) (m : memory) : Res state := do
  let count := s.readWordGeneralReg .CX
  let (residual, s') ← repeScasbLoop count s m
  Res.ok (s'.writeWordGeneralReg .CX residual)

/-- Countdown loop of `execInstRepMovsb`. -/
def repMovsbLoop : Nat → state → memory → Res (state × memory)
  | 0, s, m => .ok (s, m)
  | c + 1, s, m => do
    let (s', m') ← execMovsb s m
    repMovsbLoop c s' m'

/-- Mirrors `execInstRepMovsb`: CX is counted down to zero. -/
def execInstRepMovsb (s : state) (m : memory) : Res (state × memory) := do
  let count := s.readWordGeneralReg .CX
  let (s', m') ← repMovsbLoop count s m
  Res.ok (s'.writeWordGeneralReg .CX 0, m')

/-- Countdown loop of `execInstRepStosb`. -/
def repStosbLoop : Nat → state → memory → Res (state × memory)
  | 0, s, m => .ok (s, m)
  | c + 1, s, m => do
    let (s', m') ← execStosb s m
    repStosbLoop c s' m'

/-- Mirrors `execInstRepStosb`: CX is counted down to zero. -/
def execInstRepStosb (s : state) (m : memory) : Res (state × memory) := do
  let count := s.readWordGeneralReg .CX
  let (s', m') ← repStosbLoop count s m
  Res.ok (s'.writeWordGeneralReg .CX 0, m')

/-- Mirrors `execInstJeRel8`. -/
def execInstJeRel8 (rel8 : Int) (s : state) : Res state :=
  if s.isActiveZF then .ok { s with ip := castWord (int16OfWord s.ip + rel8) }
  else .ok s

/-- Mirrors `execInstInc` (flags untouched). -/
def execInstInc (dest : registerW) (s : state) : Res state :=
  let v := s.readWordGeneralReg dest
  .ok (s.writeWordGeneralReg dest (w16 (v + 1)))

/-- Mirrors `execInstDec` (flags untouched, `uint16` wrap). -/
def execInstDec (dest : registerW) (s : state) : Res state :=
  let v := s.readWordGeneralReg dest
  .ok (s.writeWordGeneralReg dest (w16 (v + 65535)))

/-- Mirrors `execInstXorReg16Reg16` (flags untouched). -/
def execInstXorReg16Reg16 (dest src : registerW) (s : state) : Res state :=
  let destV := s.readWordGeneralReg dest
  let srcV := s.readWordGeneralReg src
  .ok (s.writeWordGeneralReg dest (destV ^^^ srcV))

/-- Mirrors `execute`: dispatch an instruction (with its optional
segment override) against the state and memory.  Only the four
`mov mem, …`/`mov r16, mem16`/`cmp m8`-style executors receive the
override; in particular `instMovReg8MemDisp8` is executed WITHOUT it. -/
def execute (i : inst) (s : state) (m : memory) (so : Option segmentOverride) :
    Res (state × memory) :=
  match i with
  | .instMov dest imm => do let s' ← execMov dest imm s; Res.ok (s', m)
  | .instMovReg8Imm8 dest imm8 => do let s' ← execMovReg8Imm8 dest imm8 s; Res.ok (s', m)
  | .instMovRegReg dest src => do let s' ← execMovRegReg dest src s; Res.ok (s', m)
  | .instMovSRegReg dest src => do let s' ← execMovSRegReg dest src s; Res.ok (s', m)
  | .instMovRegMemBP dest disp => do let s' ← execMovRegMemBP dest disp s m; Res.ok (s', m)
  | .instMovReg8MemDisp8 dest base disp8 => do
    let s' ← execMovReg8MemDisp8 dest base disp8 s m
    Res.ok (s', m)
  | .instShl register imm => do let s' ← execShl register imm s; Res.ok (s', m)
  | .instAdd dest imm => do let s' ← execAdd dest imm s; Res.ok (s', m)
  | .instSub dest imm => do let s' ← execSub dest imm s; Res.ok (s', m)
  | .instLea dest addr => do let s' ← execLea dest addr s; Res.ok (s', m)
  | .instLeaReg16Disp8 dest base disp8 => do
    let s' ← execInstLeaReg16Disp8 dest base disp8 s m
    Res.ok (s', m)
  | .instInt operand => do let s' ← execInt operand s m; Res.ok (s', m)
  | .instPush src => execPush src s m
  | .instPop dest => do let s' ← execPop dest s m; Res.ok (s', m)
  | .instCall rel => execCall rel s m
  | .instRet => do let s' ← execRet s m; Res.ok (s', m)
  | .instJmpRel16 rel => do let s' ← execJmpRel16 rel s; Res.ok (s', m)
  | .instSti => do let s' ← execSti s; Res.ok (s', m)
  | .instAndReg8Imm8 reg imm8 => do let s' ← execAndReg8Imm8 reg imm8 s; Res.ok (s', m)
  | .instAndMem8Reg8 offset reg8 => do
    let s' ← execAndMem8Reg8 offset reg8 s m
    Res.ok (s', m)
  | .instMovMem16Reg16 offset src => execMovMem16Reg16 offset src s m so
  | .instMovMem8Reg8 offset src => execMovMem8Reg8 offset src s m so
  | .instMovReg16Mem16 dest offset => do
    let s' ← execMovReg16Mem16 dest offset s m so
    Res.ok (s', m)
  | .instMovMem16Sreg offset src => execMovMem16Sreg offset src s m so
  | .instAddReg16Reg16 dest src => do let s' ← execAddReg16Reg16 dest src s; Res.ok (s', m)
  | .instShrReg16Imm reg _ => do let s' ← execShrReg16Imm reg s; Res.ok (s', m)
  | .instShlReg16Imm reg _ => do let s' ← execShlReg16Imm reg s; Res.ok (s', m)
  | .instCmpMem8Imm8 offset imm8 => do
    let s' ← execInstCmpMem8Imm8 offset imm8 s m so
    Res.ok (s', m)
  | .instCmpMem16Imm8 offset imm8 => do
    let s' ← execInstCmpMem16Imm8 offset imm8 s m
    Res.ok (s', m)
  | .instCmpReg8Imm8 reg8 imm8 => do let s' ← execInstCmpReg8Imm8 reg8 imm8 s; Res.ok (s', m)
  | .instCmpReg16Reg16 first second => do
    let s' ← execInstCmpReg16Reg16 first second s
    Res.ok (s', m)
  | .instJneRel8 rel8 => do let s' ← execInstJneRel8 rel8 s; Res.ok (s', m)
  | .instMovReg16Sreg dest src => do let s' ← execInstMovReg16Sreg dest src s; Res.ok (s', m)
  | .instSubReg16Reg16 dest src => do
    let s' ← execInstSubReg16Reg16 dest src s
    Res.ok (s', m)
  | .instSubReg8Reg8 dest src => do let s' ← execInstSubReg8Reg8 dest src s; Res.ok (s', m)
  | .instJb rel8 => do let s' ← execInstJb rel8 s; Res.ok (s', m)
  | .instCld => do let s' ← execInstCld s; Res.ok (s', m)
  | .instRepeScasb => do let s' ← execInstRepeScasb s m; Res.ok (s', m)
  | .instRepMovsb => execInstRepMovsb s m
  | .instRepStosb => execInstRepStosb s m
  | .instStosb => execStosb s m
  | .instJeRel8 rel8 => do let s' ← execInstJeRel8 rel8 s; Res.ok (s', m)
  | .instInc dest => do let s' ← execInstInc dest s; Res.ok (s', m)
  | .instDec dest => do let s' ← execInstDec dest s; Res.ok (s', m)
  | .instXorReg16Reg16 dest src => do
    let s' ← execInstXorReg16Reg16 dest src s
    Res.ok (s', m)

/-- Check-and-append used by `newState` to install a default handler
only when the key is absent from the user-supplied overrides. -/
def addDefaultHandler (hs : List (Nat × intHandler)) (k : Nat) (v : intHandler) :
    List (Nat × intHandler) :=
  if (hs.lookup k).isSome then hs else hs ++ [(k, v)]

/-- Mirrors `newState`: initial SP/SS/IP/CS from the header, all other
registers and flags zero, and the handler registry built from the
custom handlers plus defaults for 0x30, 0x4a, 0x4c and 0x09. -/
def newState (h : header) (customIntHandlers : List (Nat × intHandler)) : state :=
  let hs := addDefaultHandler customIntHandlers 0x30 .h30
  let hs := addDefaultHandler hs 0x4a .h4a
  let hs := addDefaultHandler hs 0x4c .h4c
  let hs := addDefaultHandler hs 0x09 .h09
  { sp := h.exInitSP, ss := h.exInitSS, ip := h.exInitIP, cs := h.exInitCS,
    intHandlers := hs }

/-- Result of a whole interpreter run: a Go return (final state plus
optional error), a runtime panic, or fuel exhaustion of the model (the
Go loop running longer than the fuel allows). -/
inductive runResult : Type where
  | ret : state → Option emuErr → runResult
  | crash : runResult
  | fuelOut : runResult
deriving DecidableEq

/-- The fetch–decode–execute loop of `runExeWithCustomIntHandlers`.
On a decode error the loop breaks cleanly only when the error's cause
is `io.EOF` (which memory-backed decoding never produces); any other
decode or execute error makes the function return the ZERO state
together with the error.  A handler-set termination flag returns the
current state. -/
def runLoop : Nat → state → memory → runResult
  | 0, _, _ => .fuelOut
  | fuel + 1, s, m =>
    match decodeInstWithMemory s.realIP m with
    | .err e =>
      match e with
      | .eof => .ret s none
      | _ => .ret zeroState (some e)
    | .crash => .crash
    | .ok (i, readBytesCount, so) =>
      let s := { s with ip := w16 (s.ip + readBytesCount) }
      match execute i s m so with
      | .err e => .ret zeroState (some e)
      | .crash => .crash
      | .ok (s', m') =>
        if s'.shouldExit then .ret s' none
        else runLoop fuel s' m'

/-- Mirrors `runExeWithCustomIntHandlers`: parse the header, build
memory and initial state, run the loop.  A header parse error also
returns the zero state with the error. -/
def runExeWithCustomIntHandlers (input : List Nat)
    (customIntHandlers : List (Nat × intHandler)) (fuel : Nat) : runResult :=
  match parseHeaderWithParser (newParser input) with
  | .err e => .ret zeroState (some e)
  | .crash => .crash
  | .ok (h, loadModule) =>
    runLoop fuel (newState h customIntHandlers) (newMemoryFromHeader loadModule h)

/-- Mirrors `RunExe`: run with no custom handlers and surface
`(uint8(state.exitCode), state, error)`; `none` when the Go call does
not return (panic/fuel). -/
def RunExe (input : List Nat) (fuel : Nat) : Option (Nat × state × Option emuErr) :=
  match runExeWithCustomIntHandlers input [] fuel with
  | .ret s e => some (s.exitCode % 256, s, e)
  | _ => none

/-- The 30 bytes that follow the two signature bytes in a minimal MZ
header: headerSize = 2 paragraphs (32 bytes, no relocation area),
SS = SP = IP = CS = 0. -/
def hdrTail : List Nat :=
  [0x00, 0x00, 0x00, 0x00,
   0x00, 0x00,
   0x02, 0x00,
   0x00, 0x00, 0x00, 0x00,
   0x00, 0x00,
   0x00, 0x00,
   0x00, 0x00,
   0x00, 0x00,
   0x00, 0x00,
   0x00, 0x00,
   0x00, 0x00, 0x00, 0x00, 0x00, 0x00]

/-- An executable whose load module is the single complete instruction
`sti` (0xFB): with SS:SP = 0:0 the memory buffer is exactly one byte,
so after executing `sti` the next opcode fetch is past the end of the
stream, at a clean instruction boundary. -/
def exeBoundary : List Nat := 0x4d :: 0x5a :: hdrTail ++ [0xfb]

/-- An executable whose load module is the single byte 0x00, an opcode
outside the decoder's set. -/
def exeUnknownOp : List Nat := 0x4d :: 0x5a :: hdrTail ++ [0x00]

/-- A byte stream that is a well-formed minimal MZ image except that
its first two bytes are 'A','B' instead of 'M','Z'. -/
def exeBadSignature : List Nat := 0x41 :: 0x42 :: hdrTail

/-- Memory used to separate DS-based from ES-based resolution: byte
0xAA at linear address 2 (= DS:2 for DS = 0) and byte 0xBB at linear
address 258 (= ES:2 for ES = 0x10). -/
def memC8 : memory :=
  newMemory (((List.replicate 300 0).set 2 0xAA).set 258 0xBB)

theorem testBit_of_and_bne (x i : Nat) : ((x &&& 2 ^ i) != 0) = x.testBit i := by
  rw [Nat.and_two_pow]
  cases h : x.testBit i
  · simp
  · simp [Nat.pow_eq_zero]

theorem isActiveZF_testBit (s : state) : s.isActiveZF = s.eflags.testBit 6 := by
  have h : EFLAGS_ZF = 2 ^ 6 := rfl
  rw [state.isActiveZF, h, testBit_of_and_bne]

theorem isActiveCF_testBit (s : state) : s.isActiveCF = s.eflags.testBit 0 := by
  have h : EFLAGS_CF = 2 ^ 0 := rfl
  rw [state.isActiveCF, h, testBit_of_and_bne]

theorem isActiveDF_testBit (s : state) : s.isActiveDF = s.eflags.testBit 9 := by
  have h : EFLAGS_DF = 2 ^ 9 := rfl
  rw [state.isActiveDF, h, testBit_of_and_bne]

theorem isActiveZF_setZF (s : state) : s.setZF.isActiveZF = true := by
  simp +decide [isActiveZF_testBit, state.setZF, EFLAGS_ZF, Nat.testBit_lor]

theorem isActiveCF_setZF (s : state) : s.setZF.isActiveCF = s.isActiveCF := by
  simp +decide [isActiveCF_testBit, state.setZF, EFLAGS_ZF, Nat.testBit_lor]

theorem isActiveDF_setZF (s : state) : s.setZF.isActiveDF = s.isActiveDF := by
  simp +decide [isActiveDF_testBit, state.setZF, EFLAGS_ZF, Nat.testBit_lor]

theorem isActiveZF_resetZF (s : state) : s.resetZF.isActiveZF = false := by
  simp +decide [isActiveZF_testBit, state.resetZF, EFLAGS_ZF_INV, Nat.testBit_land]

theorem isActiveCF_resetZF (s : state) : s.resetZF.isActiveCF = s.isActiveCF := by
  simp +decide [isActiveCF_testBit, state.resetZF, EFLAGS_ZF_INV, Nat.testBit_land]

theorem isActiveDF_resetZF (s : state) : s.resetZF.isActiveDF = s.isActiveDF := by
  simp +decide [isActiveDF_testBit, state.resetZF, EFLAGS_ZF_INV, Nat.testBit_land]

theorem isActiveZF_setCF (s : state) : s.setCF.isActiveZF = s.isActiveZF := by
  simp +decide [isActiveZF_testBit, state.setCF, EFLAGS_CF, Nat.testBit_lor]

theorem isActiveCF_setCF (s : state) : s.setCF.isActiveCF = true := by
  simp +decide [isActiveCF_testBit, state.setCF, EFLAGS_CF, Nat.testBit_lor]

theorem isActiveDF_setCF (s : state) : s.setCF.isActiveDF = s.isActiveDF := by
  simp +decide [isActiveDF_testBit, state.setCF, EFLAGS_CF, Nat.testBit_lor]

theorem isActiveZF_resetCF (s : state) : s.resetCF.isActiveZF = s.isActiveZF := by
  simp +decide [isActiveZF_testBit, state.resetCF, EFLAGS_CF_INV, Nat.testBit_land]

theorem isActiveCF_resetCF (s : state) : s.resetCF.isActiveCF = false := by
  simp +decide [isActiveCF_testBit, state.resetCF, EFLAGS_CF_INV, Nat.testBit_land]

theorem isActiveDF_resetCF (s : state) : s.resetCF.isActiveDF = s.isActiveDF := by
  simp +decide [isActiveDF_testBit, state.resetCF, EFLAGS_CF_INV, Nat.testBit_land]

theorem getD_set_self (l : List Nat) (i x : Nat) (h : i < l.length) :
    (l.set i x).getD i 0 = x := by
  rw [List.getD_eq_getElem?_getD, List.getElem?_set_eq_of_lt x h]
  rfl

theorem getD_set_of_ne (l : List Nat) (i j x : Nat) (h : i ≠ j) :
    (l.set i x).getD j 0 = l.getD j 0 := by
  rw [List.getD_eq_getElem?_getD, List.getElem?_set_ne h, ← List.getD_eq_getElem?_getD]

theorem word_roundtrip (v : Nat) (h : v < 65536) :
    w16 ((((v &&& 65280) >>> 8) <<< 8) + (v &&& 255)) = v := by
  have h1 : v &&& 255 = v % 256 := Nat.and_pow_two_sub_one_eq_mod v 8
  have h2 : (v &&& 65280) >>> 8 = (v >>> 8) &&& 255 := by
    apply Nat.eq_of_testBit_eq
    intro i
    rw [Nat.testBit_shiftRight, Nat.testBit_land, Nat.testBit_land, Nat.testBit_shiftRight]
    have h65280 : (65280 : Nat) = 255 <<< 8 := rfl
    rw [h65280, Nat.testBit_shiftLeft]
    simp [Nat.le_add_right, Nat.add_sub_cancel_left]
  rw [h1, h2, Nat.shiftRight_eq_div_pow]
  have h3 : v / 2 ^ 8 &&& 255 = v / 2 ^ 8 % 256 := Nat.and_pow_two_sub_one_eq_mod _ 8
  rw [h3, Nat.shiftLeft_eq]
  unfold w16
  omega

theorem readW_writeW_self (s : state) (r : registerW) (v : Nat) :
    (s.writeWordGeneralReg r v).readWordGeneralReg r = v := by
  cases r <;> rfl

theorem sp_writeW_of_ne (s : state) (r : registerW) (v : Nat) (h : r ≠ registerW.SP) :
    (s.writeWordGeneralReg r v).sp = s.sp := by
  cases r <;> first | rfl | exact absurd rfl h

theorem readW_set_ds (s : state) (x : Nat) (r : registerW) :
    (state.readWordGeneralReg { s with ds := x } r) = s.readWordGeneralReg r := by
  cases r <;> rfl

/-- C1: the claim says the linear address is the 20-bit value
`(segment << 4) + offset` computed without truncation, with
`realAddress(0xFFFF, 0xFFFF) == 0x10FFEF`.  The code's `address` type
is `uint16`, so `realAddress` truncates to 16 bits: at the claimed
input it evaluates to 0xFFEF, not 0x10FFEF, and every result is below
2^16. -/
theorem c1_realAddress_truncates :
    realAddress 0xFFFF 0xFFFF = 0xFFEF ∧
    realAddress 0xFFFF 0xFFFF ≠ 0x10FFEF ∧
    ∀ seg offset : Nat, realAddress seg offset < 65536 :=
  ⟨rfl, by decide, fun _ _ => Nat.mod_lt _ (by decide)⟩

/-- C4: the claim says the decoder accepts exactly the opcode map of
spec section 4.4, which lists 1E/1F (push ds/pop ds), 73 (jae rel8),
81 /5 iw and /7 iw, C7 /0 iw, EB cb (jmp rel8), FF /2 (call m16) and
F3 AF (repe scasw).  The decoder in the source has no case for any of
these: each well-formed encoding below is rejected (the first seven
with an unknown-opcode error, `F3 AF` with a not-implemented error),
so the decoder accepts strictly less than the spec's map. -/
theorem c4_decoder_rejects_spec_opcodes :
    decodeInstWithMemory 0 (newMemory [0x1e]) = .err (.unknownOpcode 0x1e) ∧
    decodeInstWithMemory 0 (newMemory [0x1f]) = .err (.unknownOpcode 0x1f) ∧
    decodeInstWithMemory 0 (newMemory [0x73, 0x16]) = .err (.unknownOpcode 0x73) ∧
    decodeInstWithMemory 0 (newMemory [0x81, 0xee, 0x34, 0x12]) =
      .err (.unknownOpcode 0x81) ∧
    decodeInstWithMemory 0 (newMemory [0xc7, 0x06, 0x34, 0x12, 0x78, 0x56]) =
      .err (.unknownOpcode 0xc7) ∧
    decodeInstWithMemory 0 (newMemory [0xeb, 0x05]) = .err (.unknownOpcode 0xeb) ∧
    decodeInstWithMemory 0 (newMemory [0xff, 0x16, 0x34, 0x12]) =
      .err (.unknownOpcode 0xff) ∧
    decodeInstWithMemory 0 (newMemory [0xf3, 0xaf]) = .err .notImplemented := by
  refine ⟨by decide, by decide, by decide, by decide, by decide, by decide, by decide,
    by decide⟩

/-- C5: the claim says a word write whose last byte lies outside the
buffer fails with an illegal-address error and leaves memory
unchanged, the bounds check covering both the first and the last byte.
`writeWord` checks only the FIRST byte: on a one-byte buffer, writing
a word at address 0 (where 0 + 2 exceeds the size) passes the check
and then performs an out-of-range slice store — a Go runtime panic
(`Res.crash`), not an error return — after having already mutated the
first byte.  The two-byte READ at the same address does fail with the
illegal-address error, which is the behaviour the claim describes. -/
theorem c5_writeWord_checks_only_first_byte :
    memory.writeWord (newMemory [0xAB]) 0 0x1234 = Res.crash ∧
    0 + 2 > (newMemory [0xAB]).memorySize ∧
    memory.readBytes (newMemory [0xAB]) 0 2 = .error (.illegalAddress 0) := by
  refine ⟨by decide, by decide, by decide⟩

/-- C6: the claim says an out-of-bounds memory access during execution
is always fatal, in particular that `pop r16` with SS:SP outside the
buffer yields an error rather than a successor state.  `execPop`
discards the error component of `popWord`: on an empty buffer (SS:SP
= 0:4 is out of range, as the read shown in the third conjunct
fails), executing `pop ax` succeeds, writing the zero word into AX and
leaving SP unchanged. -/
theorem c6_pop_swallows_error :
    execute (.instPop .AX) ({ ax := 7, sp := 4 } : state) (newMemory []) none =
      .ok (({ ax := 0, sp := 4 } : state), newMemory []) ∧
    memory.readWord (newMemory []) (realAddress 0 4) = .error (.illegalAddress 4) := by
  refine ⟨by decide, by decide⟩

set_option maxRecDepth 10000 in
/-- C3: the claim says that when the opcode fetch at CS:IP is already
past the end of the instruction stream at a clean boundary, the run is
not an error and Terminates with the current state.  In the code the
loop's `io.EOF` escape can never fire, because memory-backed decoding
reports end of buffer as an illegal-address error whose cause is not
`io.EOF`: for the image whose load module is the single complete
instruction `sti` (buffer size 1), the fetch of the next opcode at
address 1 is past the end at an instruction boundary, and the run
returns the illegal-address decode error together with the ZERO state
— not a clean Terminated with the reached state. -/
theorem c3_boundary_eof_is_fatal :
    runExeWithCustomIntHandlers exeBoundary [] 3 =
      .ret zeroState (some (.illegalAddress 1)) := by decide

/-- C7: the claim says header parsing requires the MZ signature and
yields a parse error for any stream not starting with 'M','Z'.  The
parser never validates the signature: the well-formed image whose
first two bytes are 'A','B' (0x41, 0x42 — not the MZ bytes
0x4D, 0x5A) parses successfully, producing a header (with the foreign
signature stored verbatim) and an empty load module. -/
theorem c7_counterexample_bad_signature_parses :
    parseHeaderWithParser (newParser exeBadSignature) =
      .ok ({ exSignature := (0x41, 0x42), relocationItems := 0, exHeaderSize := 2,
             exInitSS := 0, exInitSP := 0, exInitIP := 0, exInitCS := 0,
             relocationTableOffset := 0 }, []) ∧
    ((0x41 : Nat), (0x42 : Nat)) ≠ ((0x4d : Nat), (0x5a : Nat)) := by
  refine ⟨by decide, by decide⟩

/-- C7 (amended): header parsing does not validate the signature at
all — for EVERY pair of leading bytes, the stream completing them with
a minimal valid header body parses successfully, storing those two
bytes verbatim as the signature; parse errors arise only from
truncation. -/
theorem c7_amended_signature_not_validated (b0 b1 : Nat) :
    parseHeaderWithParser (newParser (b0 :: b1 :: hdrTail)) =
      .ok ({ exSignature := (b0, b1), relocationItems := 0, exHeaderSize := 2,
             exInitSS := 0, exInitSP := 0, exInitIP := 0, exInitCS := 0,
             relocationTableOffset := 0 }, []) := rfl

theorem isActiveZF_set_ds (s : state) (x : Nat) :
    (state.isActiveZF { s with ds := x }) = s.isActiveZF := rfl

theorem isActiveCF_set_ds (s : state) (x : Nat) :
    (state.isActiveCF { s with ds := x }) = s.isActiveCF := rfl

theorem isActiveDF_set_ds (s : state) (x : Nat) :
    (state.isActiveDF { s with ds := x }) = s.isActiveDF := rfl

/-- C2 (amended): `cmp` always sets ZF exactly on equality, clears it
otherwise, sets CF exactly on less-than and clears it otherwise, and
leaves DF untouched — but the comparison is UNSIGNED only for the
register forms (`cmp r16, r/m16` and `cmp al, imm8`); the two memory
forms (`cmp m8, imm8` and `cmp m16, imm8`) read the memory operand as
a SIGNED `int8`/`int16` and compare signed values.  The mem8 form also
restores DS (override protocol). -/
theorem c2_amended_cmp_flags :
    (∀ (s : state) (r1 r2 : registerW), ∃ s',
      execInstCmpReg16Reg16 r1 r2 s = .ok s' ∧
      (s'.isActiveZF = true ↔ s.readWordGeneralReg r1 = s.readWordGeneralReg r2) ∧
      (s'.isActiveCF = true ↔ s.readWordGeneralReg r1 < s.readWordGeneralReg r2) ∧
      s'.isActiveDF = s.isActiveDF)
  ∧ (∀ (s : state) (r : registerB) (imm8 : Int), ∃ s',
      execInstCmpReg8Imm8 r imm8 s = .ok s' ∧
      (s'.isActiveZF = true ↔ s.readByteGeneralReg r = castByte imm8) ∧
      (s'.isActiveCF = true ↔ s.readByteGeneralReg r < castByte imm8) ∧
      s'.isActiveDF = s.isActiveDF)
  ∧ (∀ (s : state) (m : memory) (offset : Nat) (imm8 v : Int),
      m.readInt8 (realAddress s.ds offset) = .ok v → ∃ s',
      execInstCmpMem8Imm8 offset imm8 s m none = .ok s' ∧
      (s'.isActiveZF = true ↔ v = imm8) ∧
      (s'.isActiveCF = true ↔ v < imm8) ∧
      s'.isActiveDF = s.isActiveDF ∧ s'.ds = s.ds)
  ∧ (∀ (s : state) (m : memory) (offset : Nat) (imm8 v : Int),
      m.readInt16 (realAddress s.ds offset) = .ok v → ∃ s',
      execInstCmpMem16Imm8 offset imm8 s m = .ok s' ∧
      (s'.isActiveZF = true ↔ v = imm8) ∧
      (s'.isActiveCF = true ↔ v < imm8) ∧
      s'.isActiveDF = s.isActiveDF) := by
  refine ⟨fun s r1 r2 => ?_, fun s r imm8 => ?_,
          fun s m offset imm8 v hv => ?_, fun s m offset imm8 v hv => ?_⟩
  · by_cases h1 : s.readWordGeneralReg r1 = s.readWordGeneralReg r2
    · exact ⟨s.setZF.resetCF, by simp [execInstCmpReg16Reg16, h1],
        by simp [isActiveZF_resetCF, isActiveZF_setZF, h1],
        by simp [isActiveCF_resetCF, h1],
        by simp [isActiveDF_resetCF, isActiveDF_setZF]⟩
    · by_cases h2 : s.readWordGeneralReg r1 < s.readWordGeneralReg r2
      · exact ⟨s.resetZF.setCF, by simp [execInstCmpReg16Reg16, h1, h2],
          by simp [isActiveZF_setCF, isActiveZF_resetZF, h1],
          by simp [isActiveCF_setCF, h2],
          by simp [isActiveDF_setCF, isActiveDF_resetZF]⟩
      · exact ⟨s.resetZF.resetCF, by simp [execInstCmpReg16Reg16, h1, h2],
          by simp [isActiveZF_resetCF, isActiveZF_resetZF, h1],
          by simp [isActiveCF_resetCF, h2],
          by simp [isActiveDF_resetCF, isActiveDF_resetZF]⟩
  · by_cases h1 : s.readByteGeneralReg r = castByte imm8
    · exact ⟨s.setZF.resetCF, by simp [execInstCmpReg8Imm8, h1],
        by simp [isActiveZF_resetCF, isActiveZF_setZF, h1],
        by simp [isActiveCF_resetCF, h1],
        by simp [isActiveDF_resetCF, isActiveDF_setZF]⟩
    · by_cases h2 : s.readByteGeneralReg r < castByte imm8
      · exact ⟨s.resetZF.setCF, by simp [execInstCmpReg8Imm8, h1, h2],
          by simp [isActiveZF_setCF, isActiveZF_resetZF, h1],
          by simp [isActiveCF_setCF, h2],
          by simp [isActiveDF_setCF, isActiveDF_resetZF]⟩
      · exact ⟨s.resetZF.resetCF, by simp [execInstCmpReg8Imm8, h1, h2],
          by simp [isActiveZF_resetCF, isActiveZF_resetZF, h1],
          by simp [isActiveCF_resetCF, h2],
          by simp [isActiveDF_resetCF, isActiveDF_resetZF]⟩
  · by_cases h1 : v = imm8
    · refine ⟨{ s.setZF.resetCF with ds := s.ds }, ?_, ?_, ?_, ?_, rfl⟩
      · simp [execInstCmpMem8Imm8, Bind.bind, Res.bind, liftE, hv, h1]
      · simp [isActiveZF_set_ds, isActiveZF_resetCF, isActiveZF_setZF, h1]
      · simp [isActiveCF_set_ds, isActiveCF_resetCF, h1]
      · simp [isActiveDF_set_ds, isActiveDF_resetCF, isActiveDF_setZF]
    · by_cases h2 : v < imm8
      · refine ⟨{ s.resetZF.setCF with ds := s.ds }, ?_, ?_, ?_, ?_, rfl⟩
        · simp [execInstCmpMem8Imm8, Bind.bind, Res.bind, liftE, hv, h1, h2]
        · simp [isActiveZF_set_ds, isActiveZF_setCF, isActiveZF_resetZF, h1]
        · simp [isActiveCF_set_ds, isActiveCF_setCF, h2]
        · simp [isActiveDF_set_ds, isActiveDF_setCF, isActiveDF_resetZF]
      · refine ⟨{ s.resetZF.resetCF with ds := s.ds }, ?_, ?_, ?_, ?_, rfl⟩
        · simp [execInstCmpMem8Imm8, Bind.bind, Res.bind, liftE, hv, h1, h2]
        · simp [isActiveZF_set_ds, isActiveZF_resetCF, isActiveZF_resetZF, h1]
        · simp [isActiveCF_set_ds, isActiveCF_resetCF, h2]
        · simp [isActiveDF_set_ds, isActiveDF_resetCF, isActiveDF_resetZF]
  · by_cases h1 : v = imm8
    · exact ⟨s.setZF.resetCF,
        by simp [execInstCmpMem16Imm8, Bind.bind, Res.bind, liftE, hv, h1],
        by simp [isActiveZF_resetCF, isActiveZF_setZF, h1],
        by simp [isActiveCF_resetCF, h1],
        by simp [isActiveDF_resetCF, isActiveDF_setZF]⟩
    · by_cases h2 : v < imm8
      · exact ⟨s.resetZF.setCF,
          by simp [execInstCmpMem16Imm8, Bind.bind, Res.bind, liftE, hv, h1, h2],
          by simp [isActiveZF_setCF, isActiveZF_resetZF, h1],
          by simp [isActiveCF_setCF, h2],
          by simp [isActiveDF_setCF, isActiveDF_resetZF]⟩
      · exact ⟨s.resetZF.resetCF,
          by simp [execInstCmpMem16Imm8, Bind.bind, Res.bind, liftE, hv, h1, h2],
          by simp [isActiveZF_resetCF, isActiveZF_resetZF, h1],
          by simp [isActiveCF_resetCF, h2],
          by simp [isActiveDF_resetCF, isActiveDF_resetZF]⟩

/-- C2 (counterexample): with a memory byte 0x01 and the immediate
0xFF, `cmp m8, imm8` compares UNSIGNED values 1 and 255, so the claim
("CF iff x < y under unsigned comparison") requires CF set; the code
compares SIGNED values 1 and −1 and clears CF (and ZF), returning the
state unchanged. -/
theorem c2_counterexample_mem8_signed :
    execInstCmpMem8Imm8 0 (-1) zeroState (newMemory [1]) none = .ok zeroState ∧
    zeroState.isActiveCF = false ∧
    (1 : Nat) < 255 := by
  refine ⟨by decide, by decide, by decide⟩

/-- C2 (witness): the mem8 conjunct of `c2_amended_cmp_flags` applied
to the concrete memory byte 5 compared against the immediate 3. -/
theorem c2_amended_cmp_flags_witness :
    ∃ s', execInstCmpMem8Imm8 0 3 zeroState (newMemory [5]) none = .ok s' ∧
      (s'.isActiveZF = true ↔ (5 : Int) = 3) ∧
      (s'.isActiveCF = true ↔ (5 : Int) < 3) ∧
      s'.isActiveDF = zeroState.isActiveDF ∧ s'.ds = zeroState.ds :=
  c2_amended_cmp_flags.2.2.1 zeroState (newMemory [5]) 0 3 5 (by decide)

set_option maxRecDepth 10000 in
/-- C8 (counterexample): with DS = 0, ES = 0x10, DI = 2, memory holds
0xAA at the DS-resolved address (linear 2) and 0xBB at the ES-resolved
address (linear 258).  Executing `mov al, [di+0]` WITH the ES segment
override still loads 0xAA — the operand is resolved against DS, not
ES as the claim requires (DS itself is left unchanged). -/
theorem c8_counterexample_disp8_ignores_override :
    execute (.instMovReg8MemDisp8 .AL .DI 0)
        ({ ds := 0, es := 0x10, di := 2 } : state) memC8 (some ⟨.ES⟩) =
      .ok (({ ds := 0, es := 0x10, di := 2, ax := 0xAA } : state), memC8) ∧
    memC8.readByte (realAddress 0x10 2) = .ok 0xBB ∧
    (0xAA : Nat) ≠ 0xBB := by
  refine ⟨by decide, by decide, by decide⟩

/-- C8 (amended): the ES override applies to the `disp16`-offset
memory operands of the override-aware executors — for `mov [moffs16],
r16` the word is written at ES:offset and the returned state equals
the input state (DS restored) — but the executor of `mov r8,
[base+disp8]` never receives the override: executing it with the ES
override is identical to executing it with none (so its operand is
always resolved against DS). -/
theorem c8_amended_override_scope :
    (∀ (d : registerB) (b : registerW) (disp8 : Int) (s : state) (m : memory)
       (so : Option segmentOverride),
       execute (.instMovReg8MemDisp8 d b disp8) s m so =
         execute (.instMovReg8MemDisp8 d b disp8) s m none)
  ∧ (∀ (offset : Nat) (src : registerW) (s : state) (m m' : memory),
       m.writeWord (realAddress s.es offset) (s.readWordGeneralReg src) = .ok m' →
       execute (.instMovMem16Reg16 offset src) s m (some ⟨.ES⟩) = .ok (s, m')) := by
  refine ⟨fun d b disp8 s m so => rfl, fun offset src s m m' h => ?_⟩
  simp only [execute, execMovMem16Reg16, Bind.bind, Res.bind]
  rw [readW_set_ds s s.es src, h]

/-- C8 (witness): the `mov [moffs16], r16` conjunct of
`c8_amended_override_scope` at ES = 1, offset 0 (linear address 16)
and AX = 0x1234. -/
theorem c8_amended_override_scope_witness :
    execute (.instMovMem16Reg16 0 .AX)
        ({ ax := 0x1234, es := 1 } : state)
        (newMemory (List.replicate 18 0)) (some ⟨.ES⟩) =
      .ok (({ ax := 0x1234, es := 1 } : state),
           ⟨((List.replicate 18 0).set 16 0x34).set 17 0x12, 18⟩) :=
  c8_amended_override_scope.2 0 .AX _ _ _ (by decide)

/-- C9 (amended): `push r` followed by `pop r'` restores the pushed
value into r' and leaves SP unchanged, PROVIDED the destination r' is
not SP itself (popping into SP replaces SP with the popped value, as
the counterexample shows) and the stack slot at SS:(SP−2) lies within
the buffer without wrapping the 16-bit address space (both byte
addresses in bounds and below 2^16). -/
theorem c9_amended_push_then_pop (s : state) (m : memory) (r r' : registerW)
    (hr : r' ≠ registerW.SP)
    (hwf : m.memorySize = m.loadModule.length)
    (hv : s.readWordGeneralReg r < 65536)
    (hsp : s.sp < 65536)
    (ha : realAddress s.ss ((s.sp + 65534) % 65536) + 2 ≤ m.memorySize)
    (ha16 : realAddress s.ss ((s.sp + 65534) % 65536) + 2 ≤ 65536) :
    ∃ s1 m1 s2,
      execute (.instPush r) s m none = .ok (s1, m1) ∧
      execute (.instPop r') s1 m1 none = .ok (s2, m1) ∧
      s2.readWordGeneralReg r' = s.readWordGeneralReg r ∧
      s2.sp = s.sp := by
  have hlen : m.loadModule.length = m.memorySize := hwf.symm
  refine ⟨{ s with sp := (s.sp + 65534) % 65536 },
          ⟨(m.loadModule.set (realAddress s.ss ((s.sp + 65534) % 65536))
              (s.readWordGeneralReg r &&& 255)).set
            (realAddress s.ss ((s.sp + 65534) % 65536) + 1)
            ((s.readWordGeneralReg r &&& 65280) >>> 8), m.memorySize⟩,
          state.writeWordGeneralReg
            { s with sp := w16 ((s.sp + 65534) % 65536 + 2) } r'
            (s.readWordGeneralReg r),
          ?_, ?_, ?_, ?_⟩
  · -- the push
    simp only [execute, execPush, state.pushWord, w16]
    have hra : realAddress s.ss ((s.sp + 65534) % 65536) <
        m.memorySize := by omega
    rw [show memory.writeWord m
          (realAddress ({ s with sp := (s.sp + 65534) % 65536 } : state).ss
            ({ s with sp := (s.sp + 65534) % 65536 } : state).sp)
          (s.readWordGeneralReg r) =
        memory.writeWord m (realAddress s.ss ((s.sp + 65534) % 65536))
          (s.readWordGeneralReg r) from rfl]
    unfold memory.writeWord
    rw [if_neg (by omega)]
    simp only [w16]
    rw [show (realAddress s.ss ((s.sp + 65534) % 65536) + 1) % 65536 =
        realAddress s.ss ((s.sp + 65534) % 65536) + 1 from
      Nat.mod_eq_of_lt (by omega)]
    rw [if_neg (by omega)]
  · -- the pop
    simp only [execute, execPop, state.popWord]
    have hread :
        memory.readWord
          ⟨(m.loadModule.set (realAddress s.ss ((s.sp + 65534) % 65536))
              (s.readWordGeneralReg r &&& 255)).set
            (realAddress s.ss ((s.sp + 65534) % 65536) + 1)
            ((s.readWordGeneralReg r &&& 65280) >>> 8), m.memorySize⟩
          (realAddress s.ss ((s.sp + 65534) % 65536)) =
        .ok (s.readWordGeneralReg r) := by
      unfold memory.readWord memory.readBytes
      rw [if_neg (by simp only []; omega)]
      simp only [List.range_succ, List.range_zero, List.map_cons, List.map_nil,
        List.nil_append, List.cons_append, List.getD_cons_zero, List.getD_cons_succ,
        Nat.add_zero]
      rw [getD_set_self _ _ _ (by simp [List.length_set]; omega)]
      rw [getD_set_of_ne _ _ _ _ (by omega)]
      rw [getD_set_self _ _ _ (by omega)]
      rw [word_roundtrip _ hv]
    rw [show realAddress ({ s with sp := (s.sp + 65534) % 65536 } : state).ss
          ({ s with sp := (s.sp + 65534) % 65536 } : state).sp =
        realAddress s.ss ((s.sp + 65534) % 65536) from rfl]
    rw [hread]
    simp only [Bind.bind, Res.bind]
  · rw [readW_writeW_self]
  · rw [sp_writeW_of_ne _ _ _ hr]
    simp only [w16]
    omega

/-- C9 (counterexample): the claim quantifies over every pair of
16-bit general registers, including r' = SP.  With AX = 5 and SP = 16
(stack slot 14 well inside the 16-byte buffer), `push ax` followed by
`pop sp` leaves SP = 5, the popped value — not its pre-push value
16. -/
theorem c9_counterexample_pop_into_sp :
    execute (.instPush .AX) ({ ax := 5, sp := 16 } : state)
        (newMemory (List.replicate 16 0)) none =
      .ok (({ ax := 5, sp := 14 } : state),
           ⟨((List.replicate 16 0).set 14 5).set 15 0, 16⟩) ∧
    execute (.instPop .SP) ({ ax := 5, sp := 14 } : state)
        ⟨((List.replicate 16 0).set 14 5).set 15 0, 16⟩ none =
      .ok (({ ax := 5, sp := 5 } : state),
           ⟨((List.replicate 16 0).set 14 5).set 15 0, 16⟩) ∧
    (5 : Nat) ≠ 16 := by
  refine ⟨by decide, by decide, by decide⟩

/-- C9 (witness): `c9_amended_push_then_pop` at AX = 0x1234, SP = 16,
SS = 0, r = AX, r' = BX on a 16-byte buffer. -/
theorem c9_amended_push_then_pop_witness :
    ∃ s1 m1 s2,
      execute (.instPush .AX) ({ ax := 0x1234, sp := 16 } : state)
          (newMemory (List.replicate 16 0)) none = .ok (s1, m1) ∧
      execute (.instPop .BX) s1 m1 none = .ok (s2, m1) ∧
      s2.readWordGeneralReg .BX =
        state.readWordGeneralReg ({ ax := 0x1234, sp := 16 } : state) .AX ∧
      s2.sp = ({ ax := 0x1234, sp := 16 } : state).sp :=
  c9_amended_push_then_pop ({ ax := 0x1234, sp := 16 } : state)
    (newMemory (List.replicate 16 0)) .AX .BX (by decide) (by decide) (by decide)
    (by decide) (by decide) (by decide)

theorem runLoop_err_ret_zero :
    ∀ (fuel : Nat) (s : state) (m : memory) (s' : state) (e : emuErr),
      runLoop fuel s m = .ret s' (some e) → s' = zeroState := by
  intro fuel
  induction fuel with
  | zero =>
    intro s m s' e h
    simp [runLoop] at h
  | succ n ih =>
    intro s m s' e h
    unfold runLoop at h
    split at h
    · split at h
      · injection h with h1 h2
        exact absurd h2 (by simp)
      · injection h with h1 h2
        exact h1.symm
    · exact runResult.noConfusion h
    · dsimp only at h
      split at h
      · injection h with h1 h2
        exact h1.symm
      · exact runResult.noConfusion h
      · split at h
        · injection h with h1 h2
          exact absurd h2 (by simp)
        · exact ih _ _ _ _ h

/-- C10: whenever the interpreter run returns an error — a header
parse, decode or execute failure — the state it returns is the ZERO
state (every register, flag and the exit code zero), discarding
whatever state had been reached, and the public entry point `RunExe`
surfaces exit code 0 with that zero state alongside the error. -/
theorem c10_runexe_zero_state_on_error :
    ∀ (input : List Nat) (fuel : Nat) (s : state) (e : emuErr),
      runExeWithCustomIntHandlers input [] fuel = .ret s (some e) →
      s = zeroState ∧ RunExe input fuel = some (0, zeroState, some e) := by
  intro input fuel s e h
  have hz : s = zeroState := by
    unfold runExeWithCustomIntHandlers at h
    split at h
    · injection h with h1 h2
      exact h1.symm
    · exact runResult.noConfusion h
    · exact runLoop_err_ret_zero _ _ _ _ _ h
  subst hz
  refine ⟨rfl, ?_⟩
  unfold RunExe
  rw [h]
  rfl

set_option maxRecDepth 10000 in
/-- C10 (witness): `c10_runexe_zero_state_on_error` at the concrete
image whose load module is the undecodable opcode 0x00: the run fails
with the unknown-opcode decode error and `RunExe` reports exit code 0
with the zero state. -/
theorem c10_runexe_zero_state_on_error_witness :
    RunExe exeUnknownOp 1 = some (0, zeroState, some (.unknownOpcode 0)) :=
  (c10_runexe_zero_state_on_error exeUnknownOp 1 zeroState (.unknownOpcode 0)
    (by decide)).2
